import Mathlib

/-!
A verification development for the `BankBackEnd` repository (`src/bank.py`).

Modelling conventions:
* Python `float` amounts are modelled as exact rationals (`ℚ`); every property
  proved here concerns comparisons and additive arithmetic at the algorithmic
  level.  `round(x, 2)` is modelled by decimal rounding to two places; the
  half-even/half-up difference at exact halves plays no role in any statement.
* Digit strings (PANs, account numbers) are modelled as lists of decimal
  digits (`List Nat`), most significant first.
* Python object references are modelled by heaps: a card store keyed by
  `card_id` and an account store keyed by the account serial that created the
  account.  `Card.account` being `None` is `accId = none`.
* The module-global issue-date and timestamp generators are folded into the
  bank state (`issue_cursor`, `ts_cursor`); a timestamp is identified with its
  index in the shared generator sequence (the generated datetime at index `i`
  falls on day `i` after the epoch, since `hour = 9 + (3*i) % 10 ≤ 18 < 24`).
* The global `error_log` of the `try_except_dec` decorator and the
  human-readable `description` strings of `Transaction` are not modelled: no
  property below mentions them.  Raised `BankError`s are returned alongside
  the post-state, since some failing operations (the block-then-raise cases)
  do mutate state.
-/

namespace BankModel

/-! ## Constants (`bank.py` lines 26-68) -/

def DEPOSIT_LIMIT : ℚ := 1000000
def TRANSFER_LIMIT : ℚ := 500000
def PAY_LIMIT : ℚ := 500000
def MAX_CASHBACK_RATE : ℚ := 1/10
def MAX_SAVING_INTEREST_RATE : ℚ := 3/10
def DEBIT_DEFAULT_CASHBACK_RATE : ℚ := 3/100
def SAVING_CARD_DEFAULT_INTEREST : ℚ := 15/1000

def FORBIDDEN_MCC : List String := ["7995", "4829", "6051"]

/-- Models ACCOUNT_TYPE_CODE (40817) as digits. -/
def ACCOUNT_TYPE_CODE : List Nat := [4, 0, 8, 1, 7]

/-- Models ACCOUNT_BRANCH (0000) as digits. -/
def ACCOUNT_BRANCH : List Nat := [0, 0, 0, 0]

/-- Models ACCOUNT_CURRENCY (810) as digits. -/
def ACCOUNT_CURRENCY : List Nat := [8, 1, 0]

/-- The BIN digits of `BIN_BY_SYSTEM`. -/
def MIR_BIN : List Nat := [2, 2, 0, 4, 0, 0]

def VISA_BIN : List Nat := [4, 0, 0, 0, 0, 0]

def MASTERCARD_BIN : List Nat := [5, 1, 0, 0, 0, 0]

/-! ## Enums and errors (`bank.py` lines 100-192) -/

inductive CardStatus
  | ACTIVE
  | CLOSED
  | BLOCKED
deriving DecidableEq, Repr

inductive TransactionType
  | deposit
  | transfer
  | pay
  | interest
deriving DecidableEq, Repr

/-- The fixed message constants of the error-message catalog, as tags. -/
inductive ErrMsg
  | PIN_MISMATCH
  | PIN_INVALID
  | PIN_FORMAT_INVALID
  | NAME_INVALID
  | AMOUNT_NEGATIVE
  | DEPOSIT_AMOUNT_NEGATIVE
  | CASHBACK_NEGATIVE
  | INTEREST_NEGATIVE
  | PAY_AMOUNT_NEGATIVE
  | INVALID_MCC
  | PAYMENT_SYSTEM_NOT_SUPPORTED
  | RECIPIENT_NOT_FOUND
  | CARD_CLOSED
  | ACCOUNT_NOT_LINKED
  | BANK_NOT_LINKED
  | RECIPIENT_ACCOUNT_NOT_LINKED
  | RECIPIENT_CARD_CLOSED
  | DEPOSIT_LIMIT_EXCEEDED
  | TRANSFER_LIMIT_EXCEEDED
  | CASHBACK_LIMIT
  | TRANSFER_TO_SELF
  | USER_CONFLICT
  | TOO_MANY_DEBIT_CARDS
  | MCC_FORBIDDEN
  | PURCHASE_LIMIT_EXCEEDED
  | PAYMENT_NOT_ALLOWED_FOR_SAVING
  | SAVING_RATE_TOO_HIGH
  | INSUFFICIENT_FUNDS_FOR_PAYMENT
  | INSUFFICIENT_FUNDS_FOR_TRANSFER
deriving DecidableEq, Repr

/-- The five `BankError` subclasses, each carrying its message constant. -/
inductive BankError
  | validation (m : ErrMsg)
  | notFound (m : ErrMsg)
  | access (m : ErrMsg)
  | businessRule (m : ErrMsg)
  | insufficientFunds (m : ErrMsg)
deriving DecidableEq, Repr

/-! ## Data model (`bank.py` lines 213-310, 669-682) -/

/-- Models `Transaction` (the `description` string is omitted, see the header note). -/
structure Transaction where
  from_card : Option Nat
  to_card : Option Nat
  amount : ℚ
  type : TransactionType
  mcc : Option String
  timestamp : Nat
  cash_back : ℚ := 0
deriving DecidableEq, Repr

/-- Models `User`; `accounts` and `cards` hold heap keys in insertion order. -/
structure User where
  last_name : String
  first_name : String
  pin : String
  phone : String
  user_id : Nat
  accounts : List Nat := []
  cards : List Nat := []
deriving DecidableEq, Repr

/-- Models `Account`; `acc_id` is the generated digit string (`none` mirrors the
fall-through of `_next_account_number`, proved unreachable below). -/
structure Account where
  ownerId : Nat
  acc_id : Option (List Nat)
  balance : ℚ := 0
  cashback_balance : ℚ := 0
deriving DecidableEq, Repr

/-- The three card behaviours: `Card`/`SimpleDebitCard` (plain),
`CashbackDebitCard` (with its `cashback_rate`), `SavingCard` (with its
`interest_rate`). -/
inductive CardKind
  | plain
  | cashback (cashback_rate : ℚ)
  | saving (interest_rate : ℚ)
deriving DecidableEq, Repr

/-- Models `Card`.  `issue_date` counts days after the 2022-01-01 epoch of the shared
issue-date generator; the expiry date (issue date plus 4 years) is not used by
any operation and is omitted. -/
structure Card where
  card_id : Nat
  accId : Option Nat
  pan : List Nat
  payment_system : String
  status : CardStatus
  issue_date : Nat
  kind : CardKind
  transactions : List Transaction := []
deriving DecidableEq, Repr

/-- Models `Bank`, together with the module-global generator cursors.  `customers`
models the insertion-ordered `dict` of users; `accounts`/`cards` model the
per-user-id registry dicts (an absent key is the empty list); `cardHeap` and
`accountHeap` model the object graph. -/
structure BankSt where
  bic : List Nat
  user_seq : Nat := 1
  account_seq : Nat := 1
  card_seq : Nat := 1
  pan_seq : Nat := 1
  issue_cursor : Nat := 0
  ts_cursor : Nat := 0
  customers : List User := []
  accounts : Nat → List Nat := fun _ => []
  cards : Nat → List Nat := fun _ => []
  accountHeap : Nat → Option Account := fun _ => none
  cardHeap : Nat → Option Card := fun _ => none
  transaction_log : List Transaction := []

/-- Pointwise map update. -/
def upd {α : Type} (f : Nat → α) (k : Nat) (v : α) : Nat → α :=
  fun i => if i = k then v else f i

/-- Models `next_timestamp_after` (lines 89-96): the shared generator's entry at
index `i` falls on day `i`; the loop keeps consuming entries until the date
strictly exceeds `issue_date` (in days after the epoch), so it returns index
`max cursor (issue_date + 1)` and leaves the cursor one past it. -/
def nextTimestampAfter (cursor issue_date : Nat) : Nat × Nat :=
  (max cursor (issue_date + 1), max cursor (issue_date + 1) + 1)

/-- Python `str.isdigit` (ASCII inputs): nonempty and all digits. -/
def pyIsDigit (s : String) : Bool :=
  !s.isEmpty && s.data.all Char.isDigit

/-! ## Card operations (`bank.py` lines 341-666) -/

/-- Models `Card.deposit` (lines 387-418). -/
def deposit (st : BankSt) (cid : Nat) (amount : ℚ) : BankSt × Option BankError :=
  match st.cardHeap cid with
  | none => (st, some (BankError.notFound ErrMsg.RECIPIENT_NOT_FOUND))
  | some c =>
    if amount ≤ 0 then (st, some (BankError.validation ErrMsg.DEPOSIT_AMOUNT_NEGATIVE))
    else match c.accId with
      | none => (st, some (BankError.access ErrMsg.ACCOUNT_NOT_LINKED))
      | some k =>
        if c.status = CardStatus.CLOSED ∨ c.status = CardStatus.BLOCKED then
          (st, some (BankError.access ErrMsg.CARD_CLOSED))
        else if DEPOSIT_LIMIT < amount then
          ({ st with cardHeap := upd st.cardHeap cid (some { c with status := CardStatus.BLOCKED }) },
           some (BankError.businessRule ErrMsg.DEPOSIT_LIMIT_EXCEEDED))
        else
          match st.accountHeap k with
          | none => (st, some (BankError.access ErrMsg.ACCOUNT_NOT_LINKED))
          | some a =>
            let ts := nextTimestampAfter st.ts_cursor c.issue_date
            let t : Transaction :=
              { from_card := none, to_card := some c.card_id, amount := amount,
                type := TransactionType.deposit, mcc := none, timestamp := ts.1 }
            ({ st with ts_cursor := ts.2,
                       accountHeap := upd st.accountHeap k (some { a with balance := a.balance + amount }),
                       cardHeap := upd st.cardHeap cid (some { c with transactions := c.transactions ++ [t] }),
                       transaction_log := st.transaction_log ++ [t] }, none)

/-- Models `Card.transfer` (lines 420-472).  The recipient argument is the Python
object reference: `none` is `to_card is None`; a key that misses the heap has
no Python counterpart (operations are invoked on live card objects). -/
def transfer (st : BankSt) (cid : Nat) (toCid : Option Nat) (amount : ℚ) :
    BankSt × Option BankError :=
  match st.cardHeap cid with
  | none => (st, some (BankError.notFound ErrMsg.RECIPIENT_NOT_FOUND))
  | some c =>
    if amount ≤ 0 then (st, some (BankError.validation ErrMsg.AMOUNT_NEGATIVE))
    else match toCid with
      | none => (st, some (BankError.notFound ErrMsg.RECIPIENT_NOT_FOUND))
      | some tid =>
        match st.cardHeap tid with
        | none => (st, some (BankError.notFound ErrMsg.RECIPIENT_NOT_FOUND))
        | some tc =>
          match c.accId with
          | none => (st, some (BankError.access ErrMsg.ACCOUNT_NOT_LINKED))
          | some k =>
            match tc.accId with
            | none => (st, some (BankError.access ErrMsg.RECIPIENT_ACCOUNT_NOT_LINKED))
            | some k2 =>
              if c.status = CardStatus.CLOSED ∨ c.status = CardStatus.BLOCKED then
                (st, some (BankError.access ErrMsg.CARD_CLOSED))
              else if tc.status = CardStatus.CLOSED ∨ tc.status = CardStatus.BLOCKED then
                (st, some (BankError.access ErrMsg.RECIPIENT_CARD_CLOSED))
              else if c.card_id = tc.card_id then
                (st, some (BankError.businessRule ErrMsg.TRANSFER_TO_SELF))
              else if TRANSFER_LIMIT < amount then
                ({ st with cardHeap := upd st.cardHeap cid (some { c with status := CardStatus.BLOCKED }) },
                 some (BankError.businessRule ErrMsg.TRANSFER_LIMIT_EXCEEDED))
              else
                match st.accountHeap k with
                | none => (st, some (BankError.access ErrMsg.ACCOUNT_NOT_LINKED))
                | some a =>
                  if a.balance < amount then
                    (st, some (BankError.insufficientFunds ErrMsg.INSUFFICIENT_FUNDS_FOR_TRANSFER))
                  else
                    let ts := nextTimestampAfter st.ts_cursor (max c.issue_date tc.issue_date)
                    let h1 := upd st.accountHeap k (some { a with balance := a.balance - amount })
                    match h1 k2 with
                    | none => (st, some (BankError.access ErrMsg.RECIPIENT_ACCOUNT_NOT_LINKED))
                    | some a2 =>
                      let t : Transaction :=
                        { from_card := some c.card_id, to_card := some tc.card_id, amount := amount,
                          type := TransactionType.transfer, mcc := none, timestamp := ts.1 }
                      let ch1 := upd st.cardHeap cid (some { c with transactions := c.transactions ++ [t] })
                      ({ st with ts_cursor := ts.2,
                                 accountHeap := upd h1 k2 (some { a2 with balance := a2.balance + amount }),
                                 cardHeap := upd ch1 tid (some { tc with transactions := tc.transactions ++ [t] }),
                                 transaction_log := st.transaction_log ++ [t] }, none)

/-- Models `Card.pay` (lines 474-516), the base-class purchase used by plain cards. -/
def payBase (st : BankSt) (cid : Nat) (c : Card) (amount : ℚ) (mcc : String) :
    BankSt × Option BankError :=
  if amount ≤ 0 then (st, some (BankError.validation ErrMsg.PAY_AMOUNT_NEGATIVE))
  else if ¬(pyIsDigit mcc = true ∧ mcc.length = 4) then
    (st, some (BankError.validation ErrMsg.INVALID_MCC))
  else match c.accId with
    | none => (st, some (BankError.access ErrMsg.ACCOUNT_NOT_LINKED))
    | some k =>
      if c.status = CardStatus.CLOSED ∨ c.status = CardStatus.BLOCKED then
        (st, some (BankError.access ErrMsg.CARD_CLOSED))
      else if mcc ∈ FORBIDDEN_MCC then
        (st, some (BankError.businessRule ErrMsg.MCC_FORBIDDEN))
      else if PAY_LIMIT < amount then
        ({ st with cardHeap := upd st.cardHeap cid (some { c with status := CardStatus.BLOCKED }) },
         some (BankError.businessRule ErrMsg.PURCHASE_LIMIT_EXCEEDED))
      else
        match st.accountHeap k with
        | none => (st, some (BankError.access ErrMsg.ACCOUNT_NOT_LINKED))
        | some a =>
          if a.balance < amount then
            (st, some (BankError.insufficientFunds ErrMsg.INSUFFICIENT_FUNDS_FOR_PAYMENT))
          else
            let ts := nextTimestampAfter st.ts_cursor c.issue_date
            let t : Transaction :=
              { from_card := some c.card_id, to_card := none, amount := amount,
                type := TransactionType.pay, mcc := some mcc, timestamp := ts.1 }
            ({ st with ts_cursor := ts.2,
                       accountHeap := upd st.accountHeap k (some { a with balance := a.balance - amount }),
                       cardHeap := upd st.cardHeap cid (some { c with transactions := c.transactions ++ [t] }),
                       transaction_log := st.transaction_log ++ [t] }, none)

/-- Models `round(x, 2)`: decimal rounding to two places. -/
def round2 (x : ℚ) : ℚ := (round (x * 100) : ℤ) / 100

/-- Models `CashbackDebitCard.pay` (lines 560-617). -/
def payCashback (st : BankSt) (cid : Nat) (c : Card) (rate : ℚ) (amount : ℚ) (mcc : String) :
    BankSt × Option BankError :=
  if amount ≤ 0 then (st, some (BankError.validation ErrMsg.PAY_AMOUNT_NEGATIVE))
  else if ¬(pyIsDigit mcc = true ∧ mcc.length = 4) then
    (st, some (BankError.validation ErrMsg.INVALID_MCC))
  else if rate < 0 then (st, some (BankError.validation ErrMsg.CASHBACK_NEGATIVE))
  else match c.accId with
    | none => (st, some (BankError.access ErrMsg.ACCOUNT_NOT_LINKED))
    | some k =>
      if c.status = CardStatus.CLOSED ∨ c.status = CardStatus.BLOCKED then
        (st, some (BankError.access ErrMsg.CARD_CLOSED))
      else if MAX_CASHBACK_RATE ≤ rate then
        ({ st with cardHeap := upd st.cardHeap cid (some { c with status := CardStatus.BLOCKED }) },
         some (BankError.businessRule ErrMsg.CASHBACK_LIMIT))
      else if mcc ∈ FORBIDDEN_MCC then
        (st, some (BankError.businessRule ErrMsg.MCC_FORBIDDEN))
      else if PAY_LIMIT < amount then
        ({ st with cardHeap := upd st.cardHeap cid (some { c with status := CardStatus.BLOCKED }) },
         some (BankError.businessRule ErrMsg.PURCHASE_LIMIT_EXCEEDED))
      else
        match st.accountHeap k with
        | none => (st, some (BankError.access ErrMsg.ACCOUNT_NOT_LINKED))
        | some a =>
          if a.balance < amount then
            (st, some (BankError.insufficientFunds ErrMsg.INSUFFICIENT_FUNDS_FOR_PAYMENT))
          else
            let cb := round2 (amount * rate)
            let ts := nextTimestampAfter st.ts_cursor c.issue_date
            let t : Transaction :=
              { from_card := some c.card_id, to_card := none, amount := amount,
                type := TransactionType.pay, mcc := some mcc, timestamp := ts.1, cash_back := cb }
            ({ st with ts_cursor := ts.2,
                       accountHeap := upd st.accountHeap k
                         (some { a with balance := a.balance - amount,
                                        cashback_balance := a.cashback_balance + cb }),
                       cardHeap := upd st.cardHeap cid (some { c with transactions := c.transactions ++ [t] }),
                       transaction_log := st.transaction_log ++ [t] }, none)

/-- Purchase dispatch over the dynamic card class: `SavingCard.pay`
(lines 664-666) raises unconditionally; the other classes run their body. -/
def pay (st : BankSt) (cid : Nat) (amount : ℚ) (mcc : String) : BankSt × Option BankError :=
  match st.cardHeap cid with
  | none => (st, some (BankError.notFound ErrMsg.RECIPIENT_NOT_FOUND))
  | some c =>
    match c.kind with
    | CardKind.saving _ => (st, some (BankError.businessRule ErrMsg.PAYMENT_NOT_ALLOWED_FOR_SAVING))
    | CardKind.plain => payBase st cid c amount mcc
    | CardKind.cashback r => payCashback st cid c r amount mcc

/-- Models `SavingCard.accrue_interest` (lines 632-662).  Only saving cards have the
method; the other arms are modelling artifacts (a Python `AttributeError`). -/
def accrue_interest (st : BankSt) (cid : Nat) : BankSt × Option BankError :=
  match st.cardHeap cid with
  | none => (st, some (BankError.notFound ErrMsg.RECIPIENT_NOT_FOUND))
  | some c =>
    match c.kind with
    | CardKind.plain => (st, some (BankError.notFound ErrMsg.RECIPIENT_NOT_FOUND))
    | CardKind.cashback _ => (st, some (BankError.notFound ErrMsg.RECIPIENT_NOT_FOUND))
    | CardKind.saving rate =>
      if rate < 0 then (st, some (BankError.validation ErrMsg.INTEREST_NEGATIVE))
      else match c.accId with
        | none => (st, some (BankError.access ErrMsg.ACCOUNT_NOT_LINKED))
        | some k =>
          if c.status = CardStatus.CLOSED ∨ c.status = CardStatus.BLOCKED then
            (st, some (BankError.access ErrMsg.CARD_CLOSED))
          else if MAX_SAVING_INTEREST_RATE ≤ rate then
            ({ st with cardHeap := upd st.cardHeap cid (some { c with status := CardStatus.BLOCKED }) },
             some (BankError.businessRule ErrMsg.SAVING_RATE_TOO_HIGH))
          else
            match st.accountHeap k with
            | none => (st, some (BankError.access ErrMsg.ACCOUNT_NOT_LINKED))
            | some a =>
              let interest := round2 (a.balance * rate)
              let ts := nextTimestampAfter st.ts_cursor c.issue_date
              let t : Transaction :=
                { from_card := none, to_card := some c.card_id, amount := interest,
                  type := TransactionType.interest, mcc := none, timestamp := ts.1 }
              ({ st with ts_cursor := ts.2,
                         accountHeap := upd st.accountHeap k (some { a with balance := a.balance + interest }),
                         cardHeap := upd st.cardHeap cid (some { c with transactions := c.transactions ++ [t] }),
                         transaction_log := st.transaction_log ++ [t] }, none)

/-- Models `Card.close` (lines 535-536): unconditionally set status to Closed. -/
def close (st : BankSt) (cid : Nat) : BankSt :=
  match st.cardHeap cid with
  | none => st
  | some c => { st with cardHeap := upd st.cardHeap cid (some { c with status := CardStatus.CLOSED }) }

/-- Models `User.change_pin` (lines 257-276). -/
def change_pin (st : BankSt) (uid : Nat) (old_pin new_pin : String) : BankSt × Option BankError :=
  if ¬(new_pin.length = 4) ∨ ¬(old_pin.length = 4) then
    (st, some (BankError.validation ErrMsg.PIN_INVALID))
  else if ¬(pyIsDigit new_pin = true) ∨ ¬(pyIsDigit old_pin = true) then
    (st, some (BankError.validation ErrMsg.PIN_FORMAT_INVALID))
  else
    match st.customers.find? (fun u => u.user_id == uid) with
    | none => (st, some (BankError.validation ErrMsg.PIN_MISMATCH))
    | some u =>
      if ¬(old_pin = u.pin) then (st, some (BankError.validation ErrMsg.PIN_MISMATCH))
      else
        ({ st with customers :=
             st.customers.map (fun v => if v.user_id = uid then { v with pin := new_pin } else v) },
         none)

/-- Models `Card.get_balance` (lines 377-385): read-only, the state passes through. -/
def get_balance (st : BankSt) (cid : Nat) : BankSt × Option BankError × Option ℚ :=
  (st,
    match st.cardHeap cid with
    | none => (some (BankError.notFound ErrMsg.RECIPIENT_NOT_FOUND), none)
    | some c =>
      match c.accId with
      | none => (some (BankError.access ErrMsg.ACCOUNT_NOT_LINKED), none)
      | some k =>
        if c.status = CardStatus.CLOSED ∨ c.status = CardStatus.BLOCKED then
          (some (BankError.access ErrMsg.CARD_CLOSED), none)
        else (none, (st.accountHeap k).map Account.balance))

/-- Models `Card.get_card_info` (lines 341-375): read-only checks; the rendered
string is not modelled. -/
def get_card_info (st : BankSt) (cid : Nat) : BankSt × Option BankError :=
  (st,
    match st.cardHeap cid with
    | none => some (BankError.notFound ErrMsg.RECIPIENT_NOT_FOUND)
    | some c =>
      match c.accId with
      | none => some (BankError.access ErrMsg.ACCOUNT_NOT_LINKED)
      | some _ =>
        if c.status = CardStatus.CLOSED ∨ c.status = CardStatus.BLOCKED then
          some (BankError.access ErrMsg.CARD_CLOSED)
        else none)

/-- Models `Card.get_transaction_history` (lines 518-533): sorts the card's own
transaction list in place by timestamp (a stable sort, like Python's). -/
def get_transaction_history (st : BankSt) (cid : Nat) : BankSt × Option BankError :=
  match st.cardHeap cid with
  | none => (st, some (BankError.notFound ErrMsg.RECIPIENT_NOT_FOUND))
  | some c =>
    match c.accId with
    | none => (st, some (BankError.access ErrMsg.ACCOUNT_NOT_LINKED))
    | some _ =>
      if c.status = CardStatus.CLOSED ∨ c.status = CardStatus.BLOCKED then
        (st, some (BankError.access ErrMsg.CARD_CLOSED))
      else
        let c' : Card :=
          { c with transactions :=
              c.transactions.insertionSort (fun t1 t2 => t1.timestamp ≤ t2.timestamp) }
        ({ st with cardHeap := upd st.cardHeap cid (some c') }, none)

/-- Models `Bank.get_global_history` (lines 797-800): sorts the bank-wide ledger in
place by timestamp. -/
def get_global_history (st : BankSt) : BankSt :=
  { st with transaction_log :=
      st.transaction_log.insertionSort (fun t1 t2 => t1.timestamp ≤ t2.timestamp) }

/-! ## Identifier generation (`bank.py` lines 684-714) -/

/-- Decimal digits of `n`, least significant first (`fuel`-structured; `fuel = n`
always suffices since `n / 10 < n` for `n ≥ 1`). -/
def toDigitsRev : Nat → Nat → List Nat
  | 0, _ => []
  | fuel + 1, n => if n = 0 then [] else n % 10 :: toDigitsRev fuel (n / 10)

/-- The digit list of the Python zero-padding format of width `w`: the
decimal digits of `n`, zero-padded on the left to width `w` (longer numbers
are not truncated). -/
def padDigits (w n : Nat) : List Nat :=
  List.replicate (w - (toDigitsRev n n).length) 0 ++ (toDigitsRev n n).reverse

/-- Models `Bank._luhn` (lines 709-714): reverse, double every second digit starting
from index 1 of the reversed list, subtract 9 from doubles above 9, and return
`(10 - sum % 10) % 10`. -/
def luhn (number15 : List Nat) : Nat :=
  let ds := number15.reverse
  let adj := ds.mapIdx (fun i d => if i % 2 = 1 then (if d * 2 > 9 then d * 2 - 9 else d * 2) else d)
  (10 - adj.sum % 10) % 10

/-- Models the BIN_BY_SYSTEM lookup on the uppercased system name, with the
MIR BIN as the default (lines 700-703). -/
def binFor (system : String) : List Nat :=
  match system.toUpper with
  | "MIR" => MIR_BIN
  | "VISA" => VISA_BIN
  | "MASTERCARD" => MASTERCARD_BIN
  | _ => MIR_BIN

/-- Models `Bank._generate_pan` (lines 700-707) for a given value of `_pan_seq`. -/
def generate_pan (system : String) (seq : Nat) : List Nat :=
  let pan15 := binFor system ++ padDigits 9 seq
  pan15 ++ [luhn pan15]

/-- Models `weights = [7, 1, 3] * 8` (line 694). -/
def WEIGHTS : List Nat :=
  [7, 1, 3, 7, 1, 3, 7, 1, 3, 7, 1, 3, 7, 1, 3, 7, 1, 3, 7, 1, 3, 7, 1, 3]

/-- Models `control_sum` of lines 693-696: zip the digits with the weights (the zip
truncates at the shorter list), take each product modulo 10, and sum. -/
def control_sum (digits : List Nat) : Nat :=
  ((digits.zip WEIGHTS).map (fun p => p.1 * p.2 % 10)).sum

/-- Models `self.bic[-3::]` (line 687) on a digit list. -/
def bicTail (bic : List Nat) : List Nat := bic.drop (bic.length - 3)

/-- The 20-digit candidate of lines 690-692:
`prefix_left + str(control_digit) + prefix_right + serial`. -/
def candidate (d : Nat) (serial : List Nat) : List Nat :=
  ACCOUNT_TYPE_CODE ++ ACCOUNT_CURRENCY ++ [d] ++ ACCOUNT_BRANCH ++ serial

/-- Models `Bank._next_account_number` (lines 684-698) for a given value of
`_account_seq`: the first control digit in 0-9 whose checksum is divisible by
10 wins; the implicit `None` fall-through is the `none` result. -/
def next_account_number (bic : List Nat) (serialNum : Nat) : Option (List Nat) :=
  ((List.range 10).find?
      (fun d => control_sum (bicTail bic ++ candidate d (padDigits 7 serialNum)) % 10 == 0)).map
    (fun d => candidate d (padDigits 7 serialNum))

/-! ## Issuance workflow (`bank.py` lines 716-795) -/

/-- The name pattern of line 735: one or more Russian letters. -/
def isRussianLetter (c : Char) : Bool :=
  (0x410 ≤ c.toNat && c.toNat ≤ 0x44F) || c.toNat = 0x401 || c.toNat = 0x451

def isRussianName (s : String) : Bool :=
  !s.isEmpty && s.data.all isRussianLetter

/-- The reuse test of lines 759-768: same phone, last and first name. -/
def userMatches (phone last_name first_name : String) (u : User) : Bool :=
  decide (u.phone = phone ∧ u.last_name = last_name ∧ u.first_name = first_name)

/-- The conflict test of lines 748-756: same phone but a different name. -/
def userConflict (phone last_name first_name : String) (u : User) : Bool :=
  decide (u.phone = phone ∧ (u.first_name ≠ first_name ∨ u.last_name ≠ last_name))

/-- Lines 778-795: allocate the account, the PAN and the card, and register
them under user `uid` (who is already present in `customers`). -/
def applyTail (st : BankSt) (uid : Nat) (payment_system : String) (kind : CardKind) : BankSt :=
  let serial := st.account_seq
  let acct : Account :=
    { ownerId := uid, acc_id := next_account_number st.bic serial, balance := 0,
      cashback_balance := 0 }
  let pan := generate_pan payment_system st.pan_seq
  let cid := st.card_seq
  let card : Card :=
    { card_id := cid, accId := some serial, pan := pan, payment_system := payment_system,
      status := CardStatus.ACTIVE, issue_date := st.issue_cursor, kind := kind,
      transactions := [] }
  { st with account_seq := serial + 1, pan_seq := st.pan_seq + 1, card_seq := cid + 1,
            issue_cursor := st.issue_cursor + 1,
            accountHeap := upd st.accountHeap serial (some acct),
            cardHeap := upd st.cardHeap cid (some card),
            customers := st.customers.map
              (fun u => if u.user_id = uid then
                          { u with cards := u.cards ++ [cid], accounts := u.accounts ++ [serial] }
                        else u),
            accounts := upd st.accounts uid (st.accounts uid ++ [serial]),
            cards := upd st.cards uid (st.cards uid ++ [cid]) }

/-- Models `Bank.apply_for_card` (lines 716-795).  The created card's id is the
pre-state's `card_seq`.  The `issue_simple_debit_card` /
`issue_cashback_debit_card` / `issue_saving_card` wrappers only fix `kind`. -/
def apply_for_card (st : BankSt) (last_name first_name pin phone payment_system : String)
    (kind : CardKind) : BankSt × Option BankError :=
  if ¬(pyIsDigit pin = true) then (st, some (BankError.validation ErrMsg.PIN_FORMAT_INVALID))
  else if ¬(pin.length = 4) then (st, some (BankError.validation ErrMsg.PIN_INVALID))
  else if ¬(isRussianName last_name = true ∧ isRussianName first_name = true) then
    (st, some (BankError.validation ErrMsg.NAME_INVALID))
  else if ¬(payment_system.toUpper = "MIR" ∨ payment_system.toUpper = "VISA" ∨
            payment_system.toUpper = "MASTERCARD") then
    (st, some (BankError.validation ErrMsg.PAYMENT_SYSTEM_NOT_SUPPORTED))
  else if st.customers.any (userConflict phone last_name first_name) then
    (st, some (BankError.businessRule ErrMsg.USER_CONFLICT))
  else
    match st.customers.find? (userMatches phone last_name first_name) with
    | some u =>
      if 5 ≤ u.cards.length then (st, some (BankError.businessRule ErrMsg.TOO_MANY_DEBIT_CARDS))
      else (applyTail st u.user_id payment_system kind, none)
    | none =>
      let uid := st.user_seq
      let newU : User :=
        { last_name := last_name, first_name := first_name, pin := pin, phone := phone,
          user_id := uid, accounts := [], cards := [] }
      let st1 : BankSt :=
        { st with user_seq := uid + 1, customers := st.customers ++ [newU],
                  accounts := upd st.accounts uid [], cards := upd st.cards uid [] }
      (applyTail st1 uid payment_system kind, none)

/-- A fresh `Bank(name, bic)` with the module-global generators at their
initial positions. -/
def initBank (bic : List Nat) : BankSt := { bic := bic }

/-! ## The step relation: one public operation, with arbitrary arguments -/

inductive Step : BankSt → BankSt → Prop
  | deposit_s (st : BankSt) (cid : Nat) (a : ℚ) : Step st (deposit st cid a).1
  | transfer_s (st : BankSt) (cid : Nat) (toCid : Option Nat) (a : ℚ) :
      Step st (transfer st cid toCid a).1
  | pay_s (st : BankSt) (cid : Nat) (a : ℚ) (mcc : String) : Step st (pay st cid a mcc).1
  | accrue_s (st : BankSt) (cid : Nat) : Step st (accrue_interest st cid).1
  | close_s (st : BankSt) (cid : Nat) : Step st (close st cid)
  | change_pin_s (st : BankSt) (uid : Nat) (o n : String) : Step st (change_pin st uid o n).1
  | history_s (st : BankSt) (cid : Nat) : Step st (get_transaction_history st cid).1
  | global_history_s (st : BankSt) : Step st (get_global_history st)
  | get_balance_s (st : BankSt) (cid : Nat) : Step st (get_balance st cid).1
  | get_card_info_s (st : BankSt) (cid : Nat) : Step st (get_card_info st cid).1
  | apply_s (st : BankSt) (ln fn pin ph ps : String) (kind : CardKind) :
      Step st (apply_for_card st ln fn pin ph ps kind).1

/-- A bank state reachable from a freshly constructed bank. -/
def Reachable (st : BankSt) : Prop :=
  ∃ bic, Relation.ReflTransGen Step (initBank bic) st

/-! ## Invariants -/

/-- The one-directional status transitions: unchanged, Active to Blocked, or
Active/Blocked to Closed (re-closing a Closed card falls under the
unchanged case). -/
def allowedStatus (s s' : CardStatus) : Prop :=
  s' = s ∨ (s = CardStatus.ACTIVE ∧ s' = CardStatus.BLOCKED) ∨
    ((s = CardStatus.ACTIVE ∨ s = CardStatus.BLOCKED) ∧ s' = CardStatus.CLOSED)

/-- What a single non-issuing operation may do to the object heaps: sequence
counters untouched, every surviving card descends from the same card with
identity, account link and an allowed status transition, accounts are never
deleted, and every surviving account descends from an account whose balance
non-negativity it preserves. -/
def ModOK (st st' : BankSt) : Prop :=
  st'.card_seq = st.card_seq ∧
  st'.account_seq = st.account_seq ∧
  (∀ cid c', st'.cardHeap cid = some c' → ∃ c, st.cardHeap cid = some c ∧
      c'.card_id = c.card_id ∧ c'.accId = c.accId ∧ allowedStatus c.status c'.status) ∧
  (∀ k, (st.accountHeap k).isSome → (st'.accountHeap k).isSome) ∧
  (∀ k a', st'.accountHeap k = some a' → ∃ a, st.accountHeap k = some a ∧
      (0 ≤ a.balance → 0 ≤ a'.balance))

/-- Structural well-formedness of a bank state: heap keys agree with card
ids, all allocated keys are below the sequence counters, every card's account
link points at an allocated account, and distinct cards link distinct
accounts (each issuance creates a fresh account). -/
structure WF (st : BankSt) : Prop where
  card_id_eq : ∀ cid c, st.cardHeap cid = some c → c.card_id = cid
  card_lt : ∀ cid c, st.cardHeap cid = some c → cid < st.card_seq
  acc_lt : ∀ k a, st.accountHeap k = some a → k < st.account_seq
  link_lt : ∀ cid c k, st.cardHeap cid = some c → c.accId = some k → k < st.account_seq
  link_some : ∀ cid c k, st.cardHeap cid = some c → c.accId = some k →
    (st.accountHeap k).isSome
  link_inj : ∀ cid₁ cid₂ c₁ c₂ k, cid₁ ≠ cid₂ → st.cardHeap cid₁ = some c₁ →
    st.cardHeap cid₂ = some c₂ → c₁.accId = some k → c₂.accId ≠ some k

/-- Balance non-negativity of every allocated account. -/
def BalNonneg (st : BankSt) : Prop :=
  ∀ k a, st.accountHeap k = some a → 0 ≤ a.balance

/-! ## Concrete demonstration states (used by the witnesses) -/

def demoBic : List Nat := [0, 4, 4, 5, 2, 5, 2, 2, 5]

def demo0 : BankSt := initBank demoBic

/-- One card issued to a fresh user. -/
def demo1 : BankSt :=
  (apply_for_card demo0 "Иванов" "Иван" "1234" "89991234567" "MIR" CardKind.plain).1

/-- A second card issued to the same user. -/
def demo2 : BankSt :=
  (apply_for_card demo1 "Иванов" "Иван" "1234" "89991234567" "MIR" CardKind.plain).1

/-- A thousand roubles deposited on card 1. -/
def demo3 : BankSt := (deposit demo2 1 1000).1

/-- Card 1 blocked by an over-limit deposit. -/
def demoBlocked : BankSt := (deposit demo3 1 2000000).1

/-- Cards 3, 4 and 5 issued to the same user (who then holds five cards). -/
def demo5 : BankSt :=
  (apply_for_card
    (apply_for_card
      (apply_for_card demo2 "Иванов" "Иван" "1234" "89991234567" "MIR" CardKind.plain).1
      "Иванов" "Иван" "1234" "89991234567" "MIR" CardKind.plain).1
    "Иванов" "Иван" "1234" "89991234567" "MIR" CardKind.plain).1

/-- A saving card issued on a fresh bank. -/
def demoSaving : BankSt :=
  (apply_for_card demo0 "Иванов" "Иван" "1234" "89991234567" "MIR"
    (CardKind.saving SAVING_CARD_DEFAULT_INTEREST)).1

/-! # Theorems -/

/-! ## Digit-string helpers -/

theorem toDigitsRev_length_le (fuel : Nat) : ∀ n k : Nat, n < 10 ^ k →
    (toDigitsRev fuel n).length ≤ k := by
  induction fuel with
  | zero => intro n k _; simp [toDigitsRev]
  | succ fuel ih =>
    intro n k h
    unfold toDigitsRev
    by_cases hn : n = 0
    · simp [hn]
    · simp only [hn, if_false, List.length_cons]
      cases k with
      | zero => simp at h; omega
      | succ k' =>
        have hd : n / 10 < 10 ^ k' := by
          rw [Nat.div_lt_iff_lt_mul (by norm_num)]
          calc n < 10 ^ (k' + 1) := h
          _ = 10 ^ k' * 10 := by ring
        have := ih (n / 10) k' hd
        omega

theorem padDigits_length (w n : Nat) (h : n < 10 ^ w) : (padDigits w n).length = w := by
  have := toDigitsRev_length_le n n w h
  simp [padDigits]
  omega

theorem zip_append_trunc {α β : Type} (l1 l2 : List α) (w : List β) :
    (l1 ++ l2).zip w = l1.zip w ++ l2.zip (w.drop l1.length) := by
  induction l1 generalizing w with
  | nil => simp
  | cons a t ih =>
    cases w with
    | nil => simp
    | cons b w' => simp [ih]

/-- For each residue and each of the three weights (all coprime to 10) there
is exactly one digit killing the checksum. -/
theorem digit_solve : ∀ r ∈ List.range 10, ∀ w ∈ [7, 1, 3],
    ∃ d, d ∈ List.range 10 ∧ (r + d * w) % 10 = 0 ∧
      ∀ e ∈ List.range 10, (r + e * w) % 10 = 0 → e = d := by
  decide

/-- Splitting the weighted checksum around the control digit, which sits at
index 11 and so carries weight 3. -/
theorem control_sum_split (p s : List Nat) (d : Nat) (hp : p.length = 11) :
    control_sum (p ++ d :: s) =
      ((p.zip WEIGHTS).map (fun q : Nat × Nat => q.1 * q.2 % 10)).sum +
        (d * 3 % 10 +
          ((s.zip (WEIGHTS.drop 12)).map (fun q : Nat × Nat => q.1 * q.2 % 10)).sum) := by
  unfold control_sum
  rw [zip_append_trunc, hp]
  rw [show WEIGHTS.drop 11 = 3 :: WEIGHTS.drop 12 from rfl]
  rw [List.zip_cons_cons]
  simp

/-- C5.  For every account serial and every all-digit BIC (of the usual
length, at least three digits) exactly one control digit in 0-9 makes the
weighted checksum of (last three BIC digits ++ candidate account number)
divisible by 10; consequently `_next_account_number`'s search always returns
a number (the fall-through is unreachable), that number is checksum-valid,
and it has 20 digits whenever the serial fits the 7-digit format. -/
theorem c5_account_checksum (bic : List Nat) (serialNum : Nat)
    (hdig : ∀ d ∈ bic, d ≤ 9) (hlen : 3 ≤ bic.length) :
    (∃! d, d < 10 ∧
        control_sum (bicTail bic ++ candidate d (padDigits 7 serialNum)) % 10 = 0) ∧
    ∃ n, next_account_number bic serialNum = some n ∧
      control_sum (bicTail bic ++ n) % 10 = 0 ∧
      (serialNum < 10 ^ 7 → n.length = 20) := by
  clear hdig
  set s7 := padDigits 7 serialNum with hs7
  have hbt : (bicTail bic).length = 3 := by
    simp only [bicTail, List.length_drop]
    omega
  have hdecomp : ∀ d, bicTail bic ++ candidate d s7 =
      (bicTail bic ++ [4, 0, 8, 1, 7, 8, 1, 0]) ++ (d :: ([0, 0, 0, 0] ++ s7)) := by
    intro d
    simp [candidate, ACCOUNT_TYPE_CODE, ACCOUNT_CURRENCY, ACCOUNT_BRANCH]
  have hplen : (bicTail bic ++ [4, 0, 8, 1, 7, 8, 1, 0]).length = 11 := by
    simp [hbt]
  have hsum : ∀ d, control_sum (bicTail bic ++ candidate d s7) =
      (((bicTail bic ++ [4, 0, 8, 1, 7, 8, 1, 0]).zip WEIGHTS).map
        (fun q : Nat × Nat => q.1 * q.2 % 10)).sum +
      (d * 3 % 10 + ((([0, 0, 0, 0] ++ s7).zip (WEIGHTS.drop 12)).map
        (fun q : Nat × Nat => q.1 * q.2 % 10)).sum) := by
    intro d
    rw [hdecomp d]
    exact control_sum_split _ _ d hplen
  obtain ⟨A, hA⟩ : ∃ A, (((bicTail bic ++ [4, 0, 8, 1, 7, 8, 1, 0]).zip WEIGHTS).map
      (fun q : Nat × Nat => q.1 * q.2 % 10)).sum = A := ⟨_, rfl⟩
  obtain ⟨B, hB⟩ : ∃ B, ((([0, 0, 0, 0] ++ s7).zip (WEIGHTS.drop 12)).map
      (fun q : Nat × Nat => q.1 * q.2 % 10)).sum = B := ⟨_, rfl⟩
  rw [hA, hB] at hsum
  have hiff : ∀ d, (control_sum (bicTail bic ++ candidate d s7) % 10 = 0) ↔
      (((A + B) % 10 + d * 3) % 10 = 0) := by
    intro d
    rw [hsum d]
    omega
  obtain ⟨d0, hd0, hsolve, huniq⟩ :=
    digit_solve ((A + B) % 10) (List.mem_range.mpr (Nat.mod_lt _ (by norm_num))) 3 (by simp)
  have hd0' : d0 < 10 := List.mem_range.mp hd0
  constructor
  · exact ⟨d0, ⟨hd0', (hiff d0).mpr hsolve⟩,
      fun y hy => huniq y (List.mem_range.mpr hy.1) ((hiff y).mp hy.2)⟩
  · have hexm : ∃ x ∈ List.range 10,
        (control_sum (bicTail bic ++ candidate x s7) % 10 == 0) = true :=
      ⟨d0, hd0, by
        have := (hiff d0).mpr hsolve
        simpa using this⟩
    have hsome : (((List.range 10).find?
        (fun d => control_sum (bicTail bic ++ candidate d s7) % 10 == 0))).isSome := by
      rw [List.find?_isSome]
      exact hexm
    obtain ⟨x, hx⟩ := Option.isSome_iff_exists.mp hsome
    have hpx := List.find?_some hx
    refine ⟨candidate x s7, ?_, ?_, ?_⟩
    · unfold next_account_number
      rw [← hs7, hx]
      rfl
    · simpa using hpx
    · intro hser
      have : s7.length = 7 := padDigits_length 7 serialNum hser
      simp [candidate, ACCOUNT_TYPE_CODE, ACCOUNT_CURRENCY, ACCOUNT_BRANCH, this]

/-- Witness for C5 at the demonstration BIC and serial 1. -/
theorem c5_witness :
    (∀ d ∈ demoBic, d ≤ 9) ∧ 3 ≤ demoBic.length ∧
    (∃ n, next_account_number demoBic 1 = some n ∧
      control_sum (bicTail demoBic ++ n) % 10 = 0 ∧ (1 < 10 ^ 7 → n.length = 20)) :=
  ⟨by decide, by decide, (c5_account_checksum demoBic 1 (by decide) (by decide)).2⟩

/-- C6.  Every generated PAN is 16 digits: the 6-digit BIN of the payment
system (MIR's BIN for an unrecognized system), the 9-digit zero-padded
serial, and a final Luhn check digit; recomputing `_luhn` over the first 15
digits yields the 16th digit. -/
theorem c6_pan_luhn (system : String) (seq : Nat) (hseq : seq < 10 ^ 9) :
    (generate_pan system seq).length = 16 ∧
    (binFor system).length = 6 ∧
    (generate_pan system seq).take 15 = binFor system ++ padDigits 9 seq ∧
    (generate_pan system seq).drop 15 = [luhn ((generate_pan system seq).take 15)] ∧
    ((system.toUpper ≠ "MIR" ∧ system.toUpper ≠ "VISA" ∧ system.toUpper ≠ "MASTERCARD") →
      binFor system = MIR_BIN) := by
  have hbin : (binFor system).length = 6 := by
    unfold binFor
    split <;> rfl
  have hpad : (padDigits 9 seq).length = 9 := padDigits_length 9 seq hseq
  have hp15 : (binFor system ++ padDigits 9 seq).length = 15 := by
    simp [hbin, hpad]
  have htake : (generate_pan system seq).take 15 = binFor system ++ padDigits 9 seq := by
    unfold generate_pan
    exact List.take_left' hp15
  refine ⟨?_, hbin, htake, ?_, ?_⟩
  · unfold generate_pan
    simp only [List.length_append, List.length_cons, List.length_nil]
    omega
  · rw [htake]
    unfold generate_pan
    exact List.drop_left' hp15
  · intro hsys
    unfold binFor
    split
    · exact absurd (by assumption) hsys.1
    · exact absurd (by assumption) hsys.2.1
    · exact absurd (by assumption) hsys.2.2
    · rfl

/-- Witness for C6 at an unrecognized payment system and serial 1. -/
theorem c6_witness :
    (generate_pan "QIWI" 1).length = 16 ∧
    (binFor "QIWI").length = 6 ∧
    (generate_pan "QIWI" 1).take 15 = binFor "QIWI" ++ padDigits 9 1 ∧
    (generate_pan "QIWI" 1).drop 15 = [luhn ((generate_pan "QIWI" 1).take 15)] ∧
    (("QIWI".toUpper ≠ "MIR" ∧ "QIWI".toUpper ≠ "VISA" ∧ "QIWI".toUpper ≠ "MASTERCARD") →
      binFor "QIWI" = MIR_BIN) :=
  c6_pan_luhn "QIWI" 1 (by decide)

/-! ## Operation-local claims -/

/-- C9.  `SavingCard.pay` raises the fixed saving-card purchase-ban
BusinessRuleError for every input and returns the state unchanged: balances,
cashback balances, statuses and all transaction lists are exactly as before. -/
theorem c9_saving_pay (st : BankSt) (cid : Nat) (c : Card) (r : ℚ) (amount : ℚ) (mcc : String)
    (hc : st.cardHeap cid = some c) (hk : c.kind = CardKind.saving r) :
    pay st cid amount mcc =
      (st, some (BankError.businessRule ErrMsg.PAYMENT_NOT_ALLOWED_FOR_SAVING)) := by
  simp [pay, hc, hk]

/-- Witness for C9 on a concrete saving card. -/
theorem c9_witness :
    pay demoSaving 1 5 "5812" =
      (demoSaving, some (BankError.businessRule ErrMsg.PAYMENT_NOT_ALLOWED_FOR_SAVING)) :=
  c9_saving_pay demoSaving 1 ((demoSaving.cardHeap 1).get (by with_unfolding_all rfl))
    SAVING_CARD_DEFAULT_INTEREST 5 "5812" (Option.some_get _).symm
    (by with_unfolding_all rfl)

/-- Counterexample to C8 as stated: on an Active, linked card with a positive
balance, a self-transfer of amount -1 raises ValidationError (the amount
check runs first), not BusinessRuleError. -/
theorem c8_counterexample :
    (transfer demo3 1 (some 1) (-1)).2 = some (BankError.validation ErrMsg.AMOUNT_NEGATIVE) ∧
    ¬(∃ m, (transfer demo3 1 (some 1) (-1)).2 = some (BankError.businessRule m)) := by
  have h : (transfer demo3 1 (some 1) (-1)).2 =
      some (BankError.validation ErrMsg.AMOUNT_NEGATIVE) := by
    with_unfolding_all rfl
  refine ⟨h, ?_⟩
  rintro ⟨m, hm⟩
  rw [h] at hm
  simp at hm

/-- C8 amended: for every account-linked Active card and every positive
amount, a transfer whose destination is the card itself raises
BusinessRuleError (transfer-to-self) and changes nothing, regardless of the
amount's size and of the account balance. -/
theorem c8_transfer_to_self (st : BankSt) (cid : Nat) (c : Card) (k : Nat) (amount : ℚ)
    (hc : st.cardHeap cid = some c) (hk : c.accId = some k)
    (hact : c.status = CardStatus.ACTIVE) (hpos : 0 < amount) :
    transfer st cid (some cid) amount =
      (st, some (BankError.businessRule ErrMsg.TRANSFER_TO_SELF)) := by
  have hnle : ¬ amount ≤ 0 := not_le.mpr hpos
  simp [transfer, hc, hk, hact, hnle]

/-- Witness for C8 on a concrete Active card. -/
theorem c8_witness :
    transfer demo3 1 (some 1) 750000 =
      (demo3, some (BankError.businessRule ErrMsg.TRANSFER_TO_SELF)) :=
  c8_transfer_to_self demo3 1 ((demo3.cardHeap 1).get (by with_unfolding_all rfl)) 1 750000
    (Option.some_get _).symm (by with_unfolding_all rfl) (by with_unfolding_all rfl)
    (by norm_num)

/-- Counterexample to C2 as stated: after an over-limit deposit blocks the
card, a subsequent deposit of amount -1 raises ValidationError (the amount
check runs before the status check), not AccessError. -/
theorem c2_counterexample :
    (deposit demo3 1 2000000).2 = some (BankError.businessRule ErrMsg.DEPOSIT_LIMIT_EXCEEDED) ∧
    (demoBlocked.cardHeap 1).map Card.status = some CardStatus.BLOCKED ∧
    (deposit demoBlocked 1 (-1)).2 = some (BankError.validation ErrMsg.DEPOSIT_AMOUNT_NEGATIVE) ∧
    ¬(∃ m, (deposit demoBlocked 1 (-1)).2 = some (BankError.access m)) := by
  have h : (deposit demoBlocked 1 (-1)).2 =
      some (BankError.validation ErrMsg.DEPOSIT_AMOUNT_NEGATIVE) := by
    with_unfolding_all rfl
  refine ⟨by with_unfolding_all rfl, by with_unfolding_all rfl, h, ?_⟩
  rintro ⟨m, hm⟩
  rw [h] at hm
  simp at hm

/-- C2 amended: on an Active account-linked card, a deposit above
DEPOSIT_LIMIT leaves every account balance unchanged, appends nothing to any
ledger, transitions the card to Blocked, and raises BusinessRuleError; any
subsequent deposit attempt of a *positive* amount on that card then fails
with AccessError (card closed/blocked) and no further change.  (As stated the
claim is false: a non-positive subsequent amount fails with ValidationError
instead, see the counterexample.) -/
theorem c2_deposit_limit_blocks (st : BankSt) (cid : Nat) (c : Card) (k : Nat) (amount : ℚ)
    (hc : st.cardHeap cid = some c) (hact : c.status = CardStatus.ACTIVE)
    (hk : c.accId = some k) (hbig : DEPOSIT_LIMIT < amount) :
    (deposit st cid amount).2 = some (BankError.businessRule ErrMsg.DEPOSIT_LIMIT_EXCEEDED) ∧
    (deposit st cid amount).1.accountHeap = st.accountHeap ∧
    (deposit st cid amount).1.transaction_log = st.transaction_log ∧
    (deposit st cid amount).1.cardHeap cid = some { c with status := CardStatus.BLOCKED } ∧
    (∀ cid', cid' ≠ cid → (deposit st cid amount).1.cardHeap cid' = st.cardHeap cid') ∧
    (deposit st cid amount).1.customers = st.customers ∧
    (∀ amount2 : ℚ, 0 < amount2 →
      deposit (deposit st cid amount).1 cid amount2 =
        ((deposit st cid amount).1, some (BankError.access ErrMsg.CARD_CLOSED))) := by
  have hnle : ¬ amount ≤ 0 := by
    have : (0 : ℚ) < DEPOSIT_LIMIT := by norm_num [DEPOSIT_LIMIT]
    exact not_le.mpr (this.trans hbig)
  have hred : deposit st cid amount =
      ({ st with cardHeap := upd st.cardHeap cid (some { c with status := CardStatus.BLOCKED }) },
       some (BankError.businessRule ErrMsg.DEPOSIT_LIMIT_EXCEEDED)) := by
    simp [deposit, hc, hk, hnle, hact, hbig]
  rw [hred]
  refine ⟨rfl, rfl, rfl, by simp [upd], ?_, rfl, ?_⟩
  · intro cid' hne
    simp [upd, hne]
  · intro amount2 hpos2
    have hnle2 : ¬ amount2 ≤ 0 := not_le.mpr hpos2
    unfold deposit
    simp [upd, hk, hnle2]

/-- Witness for the amended C2 on card 1 of `demo3`: the over-limit deposit
blocks and raises BusinessRuleError, and a subsequent positive deposit fails
with AccessError. -/
theorem c2_witness :
    (deposit demo3 1 2000000).2 = some (BankError.businessRule ErrMsg.DEPOSIT_LIMIT_EXCEEDED) ∧
    deposit (deposit demo3 1 2000000).1 1 5 =
      ((deposit demo3 1 2000000).1, some (BankError.access ErrMsg.CARD_CLOSED)) := by
  have H := c2_deposit_limit_blocks demo3 1
    ((demo3.cardHeap 1).get (by with_unfolding_all rfl)) 1 2000000
    (Option.some_get _).symm (by with_unfolding_all rfl) (by with_unfolding_all rfl)
    (by norm_num [DEPOSIT_LIMIT])
  exact ⟨H.1, H.2.2.2.2.2.2 5 (by norm_num)⟩

/-! ## `apply_for_card` helpers -/

theorem find?_map_pres {α : Type} (l : List α) (m : α → Bool) (f : α → α)
    (hm : ∀ v, m (f v) = m v) : (l.map f).find? m = (l.find? m).map f := by
  induction l with
  | nil => rfl
  | cons a t ih =>
    by_cases ha : m a = true
    · simp [List.find?_cons, hm, ha]
    · simp only [Bool.not_eq_true] at ha
      simp [List.find?_cons, hm, ha, ih]

theorem find?_append_none {α : Type} (l l' : List α) (p : α → Bool)
    (h : l.find? p = none) : (l ++ l').find? p = l'.find? p := by
  induction l with
  | nil => rfl
  | cons a t ih =>
    rw [List.find?_eq_none] at h
    have ha : p a = false := by
      have := h a (List.mem_cons_self a t)
      simpa using this
    have ht : t.find? p = none :=
      List.find?_eq_none.mpr (fun x hx => h x (List.mem_cons_of_mem a hx))
    simp [List.find?_cons, ha, ih ht]

/-- Reduction of `apply_for_card` when all validations pass and a matching
user with fewer than five cards exists. -/
theorem apply_reduce_found (st : BankSt) (ln fn pin ph ps : String) (kind : CardKind) (u : User)
    (hpin : pyIsDigit pin = true) (hlen : pin.length = 4)
    (hn1 : isRussianName ln = true) (hn2 : isRussianName fn = true)
    (hps : ps.toUpper = "MIR" ∨ ps.toUpper = "VISA" ∨ ps.toUpper = "MASTERCARD")
    (hconf : st.customers.any (userConflict ph ln fn) = false)
    (hfind : st.customers.find? (userMatches ph ln fn) = some u)
    (hcnt : u.cards.length < 5) :
    apply_for_card st ln fn pin ph ps kind = (applyTail st u.user_id ps kind, none) := by
  unfold apply_for_card
  rw [if_neg (by simp [hpin]), if_neg (by simp [hlen]), if_neg (by simp [hn1, hn2]),
    if_neg (not_not_intro hps), if_neg (by simp [hconf]), hfind]
  simp [not_le.mpr hcnt]

/-- Reduction of `apply_for_card` when all validations pass and no matching
user exists: a fresh user is registered, then the common tail runs. -/
theorem apply_reduce_new (st : BankSt) (ln fn pin ph ps : String) (kind : CardKind)
    (hpin : pyIsDigit pin = true) (hlen : pin.length = 4)
    (hn1 : isRussianName ln = true) (hn2 : isRussianName fn = true)
    (hps : ps.toUpper = "MIR" ∨ ps.toUpper = "VISA" ∨ ps.toUpper = "MASTERCARD")
    (hconf : st.customers.any (userConflict ph ln fn) = false)
    (hfind : st.customers.find? (userMatches ph ln fn) = none) :
    apply_for_card st ln fn pin ph ps kind =
      (applyTail
        { st with user_seq := st.user_seq + 1,
                  customers := st.customers ++
                    [{ last_name := ln, first_name := fn, pin := pin, phone := ph,
                       user_id := st.user_seq, accounts := [], cards := [] }],
                  accounts := upd st.accounts st.user_seq [],
                  cards := upd st.cards st.user_seq [] }
        st.user_seq ps kind, none) := by
  unfold apply_for_card
  rw [if_neg (by simp [hpin]), if_neg (by simp [hlen]), if_neg (by simp [hn1, hn2]),
    if_neg (not_not_intro hps), if_neg (by simp [hconf]), hfind]

/-- Reduction of `apply_for_card` when the matching user already holds five
or more cards: the too-many-cards failure, before anything is allocated. -/
theorem apply_reduce_toomany (st : BankSt) (ln fn pin ph ps : String) (kind : CardKind) (u : User)
    (hpin : pyIsDigit pin = true) (hlen : pin.length = 4)
    (hn1 : isRussianName ln = true) (hn2 : isRussianName fn = true)
    (hps : ps.toUpper = "MIR" ∨ ps.toUpper = "VISA" ∨ ps.toUpper = "MASTERCARD")
    (hconf : st.customers.any (userConflict ph ln fn) = false)
    (hfind : st.customers.find? (userMatches ph ln fn) = some u)
    (hcnt : 5 ≤ u.cards.length) :
    apply_for_card st ln fn pin ph ps kind =
      (st, some (BankError.businessRule ErrMsg.TOO_MANY_DEBIT_CARDS)) := by
  unfold apply_for_card
  rw [if_neg (by simp [hpin]), if_neg (by simp [hlen]), if_neg (by simp [hn1, hn2]),
    if_neg (not_not_intro hps), if_neg (by simp [hconf]), hfind]
  simp [hcnt]

/-- The per-user registration update of `applyTail` does not change the
fields the matcher and conflict predicates read. -/
theorem tail_update_matches (ph ln fn : String) (uid cid serial : Nat) (v : User) :
    userMatches ph ln fn
        (if v.user_id = uid then
          { v with cards := v.cards ++ [cid], accounts := v.accounts ++ [serial] }
        else v) = userMatches ph ln fn v := by
  split <;> rfl

theorem tail_update_conflict (ph ln fn : String) (uid cid serial : Nat) (v : User) :
    userConflict ph ln fn
        (if v.user_id = uid then
          { v with cards := v.cards ++ [cid], accounts := v.accounts ++ [serial] }
        else v) = userConflict ph ln fn v := by
  split <;> rfl

theorem tail_update_pin (uid cid serial : Nat) (v : User) :
    (if v.user_id = uid then
        { v with cards := v.cards ++ [cid], accounts := v.accounts ++ [serial] }
      else v).pin = v.pin := by
  split <;> rfl

theorem any_map_pres {α : Type} (l : List α) (p : α → Bool) (f : α → α)
    (hm : ∀ v, p (f v) = p v) : (l.map f).any p = l.any p := by
  induction l with
  | nil => rfl
  | cons a t ih => simp [hm, ih]

/-- C10.  When `apply_for_card` reuses an existing user, the `pin` argument
is only format-validated: the call succeeds for any well-formed pin (in
particular one differing from the stored PIN), no stored PIN changes, and the
entire result is independent of which well-formed pin was passed. -/
theorem c10_pin_format_only (st : BankSt) (ln fn pin ph ps : String) (kind : CardKind) (u : User)
    (hpin : pyIsDigit pin = true) (hlen : pin.length = 4)
    (hn1 : isRussianName ln = true) (hn2 : isRussianName fn = true)
    (hps : ps.toUpper = "MIR" ∨ ps.toUpper = "VISA" ∨ ps.toUpper = "MASTERCARD")
    (hconf : st.customers.any (userConflict ph ln fn) = false)
    (hfind : st.customers.find? (userMatches ph ln fn) = some u)
    (hcnt : u.cards.length < 5) :
    (apply_for_card st ln fn pin ph ps kind).2 = none ∧
    (apply_for_card st ln fn pin ph ps kind).1.customers.map User.pin =
      st.customers.map User.pin ∧
    (∀ pin2 : String, pyIsDigit pin2 = true → pin2.length = 4 →
      apply_for_card st ln fn pin2 ph ps kind = apply_for_card st ln fn pin ph ps kind) := by
  have hred := apply_reduce_found st ln fn pin ph ps kind u hpin hlen hn1 hn2 hps hconf hfind hcnt
  refine ⟨by rw [hred], ?_, ?_⟩
  · rw [hred]
    show ((applyTail st u.user_id ps kind).customers).map User.pin = st.customers.map User.pin
    unfold applyTail
    simp only [List.map_map]
    exact List.map_congr_left (fun v _ => tail_update_pin u.user_id st.card_seq st.account_seq v)
  · intro pin2 hpin2 hlen2
    rw [hred,
      apply_reduce_found st ln fn pin2 ph ps kind u hpin2 hlen2 hn1 hn2 hps hconf hfind hcnt]

/-- Witness for C10: the second issuance reuses user 1 although the supplied
pin "9999" differs from the stored "1234". -/
theorem c10_witness :
    (apply_for_card demo1 "Иванов" "Иван" "9999" "89991234567" "MIR" CardKind.plain).2 = none ∧
    (apply_for_card demo1 "Иванов" "Иван" "9999" "89991234567" "MIR"
        CardKind.plain).1.customers.map User.pin = demo1.customers.map User.pin ∧
    (∀ pin2 : String, pyIsDigit pin2 = true → pin2.length = 4 →
      apply_for_card demo1 "Иванов" "Иван" pin2 "89991234567" "MIR" CardKind.plain =
        apply_for_card demo1 "Иванов" "Иван" "9999" "89991234567" "MIR" CardKind.plain) :=
  c10_pin_format_only demo1 "Иванов" "Иван" "9999" "89991234567" "MIR" CardKind.plain
    ((demo1.customers.find? (userMatches "89991234567" "Иванов" "Иван")).get
      (by with_unfolding_all rfl))
    (by decide) (by decide) (by decide) (by decide) (Or.inl (by with_unfolding_all rfl))
    (by with_unfolding_all rfl) (Option.some_get _).symm
    (by with_unfolding_all decide)

/-! ## Per-operation heap lemmas -/

theorem allowedStatus_refl (s : CardStatus) : allowedStatus s s := Or.inl rfl

theorem allowedStatus_to_closed (s : CardStatus) : allowedStatus s CardStatus.CLOSED := by
  cases s <;> simp [allowedStatus]

theorem modOK_refl (st : BankSt) : ModOK st st :=
  ⟨rfl, rfl, fun _ c' h => ⟨c', h, rfl, rfl, allowedStatus_refl _⟩,
    fun _ h => h, fun _ a' h => ⟨a', h, id⟩⟩

/-- The common block-then-raise mutation: after the not-Closed/Blocked guard
has passed, setting the card's status to Blocked is a `ModOK` step. -/
theorem modOK_block (st : BankSt) (cid : Nat) (c : Card)
    (hc : st.cardHeap cid = some c)
    (hact : ¬(c.status = CardStatus.CLOSED ∨ c.status = CardStatus.BLOCKED)) :
    ModOK st { st with cardHeap := upd st.cardHeap cid (some { c with status := CardStatus.BLOCKED }) } := by
  have hA : c.status = CardStatus.ACTIVE := by
    cases h : c.status
    · rfl
    · exact absurd (Or.inl h) hact
    · exact absurd (Or.inr h) hact
  refine ⟨rfl, rfl, ?_, fun _ h => h, fun _ a' h => ⟨a', h, id⟩⟩
  intro cid' c' h'
  simp only [upd] at h'
  by_cases he : cid' = cid
  · rw [if_pos he] at h'
    cases h'
    exact ⟨c, he ▸ hc, rfl, rfl, Or.inr (Or.inl ⟨hA, rfl⟩)⟩
  · rw [if_neg he] at h'
    exact ⟨c', h', rfl, rfl, allowedStatus_refl _⟩

theorem round2_nonneg (x : ℚ) (h : 0 ≤ x) : 0 ≤ round2 x := by
  unfold round2
  have h1 : (0 : ℤ) ≤ round (x * 100) := by
    rw [round_eq]
    exact Int.le_floor.mpr (by push_cast; linarith)
  positivity

theorem deposit_mod (st : BankSt) (cid : Nat) (a : ℚ) : ModOK st (deposit st cid a).1 := by
  unfold deposit
  split
  · exact modOK_refl st
  next c hc =>
    split
    · exact modOK_refl st
    next hpos =>
      split
      · exact modOK_refl st
      next k hk =>
        split
        · exact modOK_refl st
        next hact =>
          split
          next hbig => exact modOK_block st cid c hc hact
          next hnbig =>
            split
            · exact modOK_refl st
            next acc hacc =>
              refine ⟨rfl, rfl, ?_, ?_, ?_⟩
              · intro cid' c' h'
                simp only [upd] at h'
                by_cases he : cid' = cid
                · rw [if_pos he] at h'
                  cases h'
                  exact ⟨c, he ▸ hc, rfl, rfl, allowedStatus_refl _⟩
                · rw [if_neg he] at h'
                  exact ⟨c', h', rfl, rfl, allowedStatus_refl _⟩
              · intro k' h'
                simp only [upd]
                by_cases he : k' = k
                · simp [he]
                · simpa [he] using h'
              · intro k' a' h'
                simp only [upd] at h'
                by_cases he : k' = k
                · rw [if_pos he] at h'
                  cases h'
                  exact ⟨acc, he ▸ hacc, fun hb => by simp; linarith⟩
                · rw [if_neg he] at h'
                  exact ⟨a', h', id⟩

theorem modOK_customers (st : BankSt) (cs : List User) : ModOK st { st with customers := cs } :=
  ⟨rfl, rfl, fun _ c' h => ⟨c', h, rfl, rfl, allowedStatus_refl _⟩,
    fun _ h => h, fun _ a' h => ⟨a', h, id⟩⟩

theorem modOK_log (st : BankSt) (l : List Transaction) :
    ModOK st { st with transaction_log := l } :=
  ⟨rfl, rfl, fun _ c' h => ⟨c', h, rfl, rfl, allowedStatus_refl _⟩,
    fun _ h => h, fun _ a' h => ⟨a', h, id⟩⟩

theorem transfer_mod (st : BankSt) (cid : Nat) (toCid : Option Nat) (a : ℚ) :
    ModOK st (transfer st cid toCid a).1 := by
  unfold transfer
  split
  · exact modOK_refl st
  next c hc =>
    split
    · exact modOK_refl st
    next hpos =>
      split
      · exact modOK_refl st
      next tid =>
        split
        · exact modOK_refl st
        next tc htc =>
          split
          · exact modOK_refl st
          next k hk =>
            split
            · exact modOK_refl st
            next k2 hk2 =>
              split
              · exact modOK_refl st
              next hact =>
                split
                · exact modOK_refl st
                next htact =>
                  split
                  · exact modOK_refl st
                  next hne =>
                    split
                    next hbig => exact modOK_block st cid c hc hact
                    next hnbig =>
                      split
                      · exact modOK_refl st
                      next acc hacc =>
                        split
                        · exact modOK_refl st
                        next hfunds =>
                          dsimp only
                          split
                          · exact modOK_refl st
                          next a2 ha2 =>
                            refine ⟨rfl, rfl, ?_, ?_, ?_⟩
                            · intro cid' c' h'
                              simp only [upd] at h'
                              by_cases h2 : cid' = tid
                              · rw [if_pos h2] at h'
                                cases h'
                                exact ⟨tc, h2 ▸ htc, rfl, rfl, allowedStatus_refl _⟩
                              · rw [if_neg h2] at h'
                                by_cases h1 : cid' = cid
                                · rw [if_pos h1] at h'
                                  cases h'
                                  exact ⟨c, h1 ▸ hc, rfl, rfl, allowedStatus_refl _⟩
                                · rw [if_neg h1] at h'
                                  exact ⟨c', h', rfl, rfl, allowedStatus_refl _⟩
                            · intro k' h'
                              simp only [upd]
                              by_cases e2 : k' = k2
                              · simp [e2]
                              · rw [if_neg e2]
                                by_cases e1 : k' = k
                                · simp [e1]
                                · simp only [upd, if_neg e1] at h' ⊢
                                  exact h'
                            · intro k' a' h'
                              have hamt : 0 < a := not_le.mp hpos
                              simp only [upd] at h' ha2
                              by_cases e2 : k' = k2
                              · rw [if_pos e2] at h'
                                cases h'
                                by_cases ek : k2 = k
                                · rw [if_pos ek] at ha2
                                  cases ha2
                                  refine ⟨acc, ?_, fun hb => ?_⟩
                                  · rw [e2, ek]
                                    exact hacc
                                  · simp only []
                                    linarith
                                · rw [if_neg ek] at ha2
                                  refine ⟨a2, e2 ▸ ha2, fun hb => ?_⟩
                                  simp only []
                                  linarith
                              · rw [if_neg e2] at h'
                                by_cases e1 : k' = k
                                · rw [if_pos e1] at h'
                                  cases h'
                                  refine ⟨acc, e1 ▸ hacc, fun _ => ?_⟩
                                  simp only []
                                  linarith [not_lt.mp hfunds]
                                · rw [if_neg e1] at h'
                                  exact ⟨a', h', id⟩

theorem payBase_mod (st : BankSt) (cid : Nat) (c : Card) (a : ℚ) (mcc : String)
    (hc : st.cardHeap cid = some c) : ModOK st (payBase st cid c a mcc).1 := by
  unfold payBase
  split
  · exact modOK_refl st
  next hpos =>
    split
    · exact modOK_refl st
    next hmcc =>
      split
      · exact modOK_refl st
      next k hk =>
        split
        · exact modOK_refl st
        next hact =>
          split
          · exact modOK_refl st
          next hforb =>
            split
            next hbig => exact modOK_block st cid c hc hact
            next hnbig =>
              split
              · exact modOK_refl st
              next acc hacc =>
                split
                · exact modOK_refl st
                next hfunds =>
                  refine ⟨rfl, rfl, ?_, ?_, ?_⟩
                  · intro cid' c' h'
                    simp only [upd] at h'
                    by_cases he : cid' = cid
                    · rw [if_pos he] at h'
                      cases h'
                      exact ⟨c, he ▸ hc, rfl, rfl, allowedStatus_refl _⟩
                    · rw [if_neg he] at h'
                      exact ⟨c', h', rfl, rfl, allowedStatus_refl _⟩
                  · intro k' h'
                    simp only [upd]
                    by_cases he : k' = k
                    · simp [he]
                    · simpa [he] using h'
                  · intro k' a' h'
                    simp only [upd] at h'
                    by_cases he : k' = k
                    · rw [if_pos he] at h'
                      cases h'
                      refine ⟨acc, he ▸ hacc, fun _ => ?_⟩
                      simp only []
                      linarith [not_lt.mp hfunds]
                    · rw [if_neg he] at h'
                      exact ⟨a', h', id⟩

theorem payCashback_mod (st : BankSt) (cid : Nat) (c : Card) (r a : ℚ) (mcc : String)
    (hc : st.cardHeap cid = some c) : ModOK st (payCashback st cid c r a mcc).1 := by
  unfold payCashback
  split
  · exact modOK_refl st
  next hpos =>
    split
    · exact modOK_refl st
    next hmcc =>
      split
      · exact modOK_refl st
      next hrate =>
        split
        · exact modOK_refl st
        next k hk =>
          split
          · exact modOK_refl st
          next hact =>
            split
            next hmax => exact modOK_block st cid c hc hact
            next hnmax =>
              split
              · exact modOK_refl st
              next hforb =>
                split
                next hbig => exact modOK_block st cid c hc hact
                next hnbig =>
                  split
                  · exact modOK_refl st
                  next acc hacc =>
                    split
                    · exact modOK_refl st
                    next hfunds =>
                      refine ⟨rfl, rfl, ?_, ?_, ?_⟩
                      · intro cid' c' h'
                        simp only [upd] at h'
                        by_cases he : cid' = cid
                        · rw [if_pos he] at h'
                          cases h'
                          exact ⟨c, he ▸ hc, rfl, rfl, allowedStatus_refl _⟩
                        · rw [if_neg he] at h'
                          exact ⟨c', h', rfl, rfl, allowedStatus_refl _⟩
                      · intro k' h'
                        simp only [upd]
                        by_cases he : k' = k
                        · simp [he]
                        · simpa [he] using h'
                      · intro k' a' h'
                        simp only [upd] at h'
                        by_cases he : k' = k
                        · rw [if_pos he] at h'
                          cases h'
                          refine ⟨acc, he ▸ hacc, fun _ => ?_⟩
                          simp only []
                          linarith [not_lt.mp hfunds]
                        · rw [if_neg he] at h'
                          exact ⟨a', h', id⟩

theorem pay_mod (st : BankSt) (cid : Nat) (a : ℚ) (mcc : String) :
    ModOK st (pay st cid a mcc).1 := by
  unfold pay
  split
  · exact modOK_refl st
  next c hc =>
    split
    · exact modOK_refl st
    · exact payBase_mod st cid c a mcc hc
    next r hr => exact payCashback_mod st cid c r a mcc hc

theorem accrue_mod (st : BankSt) (cid : Nat) : ModOK st (accrue_interest st cid).1 := by
  unfold accrue_interest
  split
  · exact modOK_refl st
  next c hc =>
    split
    · exact modOK_refl st
    · exact modOK_refl st
    next rate hkind =>
      split
      · exact modOK_refl st
      next hrate =>
        split
        · exact modOK_refl st
        next k hk =>
          split
          · exact modOK_refl st
          next hact =>
            split
            next hmax => exact modOK_block st cid c hc hact
            next hnmax =>
              split
              · exact modOK_refl st
              next acc hacc =>
                refine ⟨rfl, rfl, ?_, ?_, ?_⟩
                · intro cid' c' h'
                  simp only [upd] at h'
                  by_cases he : cid' = cid
                  · rw [if_pos he] at h'
                    cases h'
                    exact ⟨c, he ▸ hc, rfl, rfl, allowedStatus_refl _⟩
                  · rw [if_neg he] at h'
                    exact ⟨c', h', rfl, rfl, allowedStatus_refl _⟩
                · intro k' h'
                  simp only [upd]
                  by_cases he : k' = k
                  · simp [he]
                  · simpa [he] using h'
                · intro k' a' h'
                  simp only [upd] at h'
                  by_cases he : k' = k
                  · rw [if_pos he] at h'
                    cases h'
                    refine ⟨acc, he ▸ hacc, fun hb => ?_⟩
                    simp only []
                    have h0 : 0 ≤ round2 (acc.balance * rate) :=
                      round2_nonneg _ (mul_nonneg hb (not_lt.mp hrate))
                    linarith
                  · rw [if_neg he] at h'
                    exact ⟨a', h', id⟩

theorem close_mod (st : BankSt) (cid : Nat) : ModOK st (close st cid) := by
  unfold close
  split
  · exact modOK_refl st
  next c hc =>
    refine ⟨rfl, rfl, ?_, fun _ h => h, fun _ a' h => ⟨a', h, id⟩⟩
    intro cid' c' h'
    simp only [upd] at h'
    by_cases he : cid' = cid
    · rw [if_pos he] at h'
      cases h'
      exact ⟨c, he ▸ hc, rfl, rfl, allowedStatus_to_closed _⟩
    · rw [if_neg he] at h'
      exact ⟨c', h', rfl, rfl, allowedStatus_refl _⟩

theorem change_pin_mod (st : BankSt) (uid : Nat) (o n : String) :
    ModOK st (change_pin st uid o n).1 := by
  unfold change_pin
  split
  · exact modOK_refl st
  · split
    · exact modOK_refl st
    · split
      · exact modOK_refl st
      · split
        · exact modOK_refl st
        · exact modOK_customers st _

theorem history_mod (st : BankSt) (cid : Nat) :
    ModOK st (get_transaction_history st cid).1 := by
  unfold get_transaction_history
  split
  · exact modOK_refl st
  next c hc =>
    split
    · exact modOK_refl st
    · split
      · exact modOK_refl st
      next hact =>
        refine ⟨rfl, rfl, ?_, fun _ h => h, fun _ a' h => ⟨a', h, id⟩⟩
        intro cid' c' h'
        simp only [upd] at h'
        by_cases he : cid' = cid
        · rw [if_pos he] at h'
          cases h'
          exact ⟨c, he ▸ hc, rfl, rfl, allowedStatus_refl _⟩
        · rw [if_neg he] at h'
          exact ⟨c', h', rfl, rfl, allowedStatus_refl _⟩

theorem global_history_mod (st : BankSt) : ModOK st (get_global_history st) :=
  modOK_log st _

theorem get_balance_fst (st : BankSt) (cid : Nat) : (get_balance st cid).1 = st := rfl

theorem get_card_info_fst (st : BankSt) (cid : Nat) : (get_card_info st cid).1 = st := rfl

/-! ## Effects of `apply_for_card` on the heaps -/

/-- Models `apply_for_card` either fails with the state unchanged, or runs
`applyTail` on a base state whose heaps and card/account counters are the
pre-state's. -/
theorem apply_cases (st : BankSt) (ln fn pin ph ps : String) (kind : CardKind) :
    (apply_for_card st ln fn pin ph ps kind).1 = st ∨
    ∃ (uid : Nat) (stb : BankSt),
      stb.cardHeap = st.cardHeap ∧ stb.accountHeap = st.accountHeap ∧
      stb.card_seq = st.card_seq ∧ stb.account_seq = st.account_seq ∧
      (apply_for_card st ln fn pin ph ps kind).1 = applyTail stb uid ps kind := by
  unfold apply_for_card
  split
  · exact Or.inl rfl
  split
  · exact Or.inl rfl
  split
  · exact Or.inl rfl
  split
  · exact Or.inl rfl
  split
  · exact Or.inl rfl
  split
  next u hu =>
    split
    · exact Or.inl rfl
    · exact Or.inr ⟨u.user_id, st, rfl, rfl, rfl, rfl, rfl⟩
  next hu =>
    exact Or.inr ⟨st.user_seq,
      { st with user_seq := st.user_seq + 1,
                customers := st.customers ++
                  [{ last_name := ln, first_name := fn, pin := pin, phone := ph,
                     user_id := st.user_seq, accounts := [], cards := [] }],
                accounts := upd st.accounts st.user_seq [],
                cards := upd st.cards st.user_seq [] },
      rfl, rfl, rfl, rfl, rfl⟩

theorem applyTail_cardHeap_ne (st : BankSt) (uid : Nat) (ps : String) (kind : CardKind)
    (cid : Nat) (h : cid ≠ st.card_seq) :
    (applyTail st uid ps kind).cardHeap cid = st.cardHeap cid := by
  show upd st.cardHeap st.card_seq _ cid = _
  simp [upd, h]

theorem applyTail_cardHeap_new (st : BankSt) (uid : Nat) (ps : String) (kind : CardKind) :
    (applyTail st uid ps kind).cardHeap st.card_seq = some
      { card_id := st.card_seq, accId := some st.account_seq,
        pan := generate_pan ps st.pan_seq, payment_system := ps,
        status := CardStatus.ACTIVE, issue_date := st.issue_cursor, kind := kind,
        transactions := [] } := by
  show upd st.cardHeap st.card_seq _ st.card_seq = _
  simp [upd]

theorem applyTail_accountHeap_ne (st : BankSt) (uid : Nat) (ps : String) (kind : CardKind)
    (k : Nat) (h : k ≠ st.account_seq) :
    (applyTail st uid ps kind).accountHeap k = st.accountHeap k := by
  show upd st.accountHeap st.account_seq _ k = _
  simp [upd, h]

theorem applyTail_accountHeap_new (st : BankSt) (uid : Nat) (ps : String) (kind : CardKind) :
    (applyTail st uid ps kind).accountHeap st.account_seq = some
      { ownerId := uid, acc_id := next_account_number st.bic st.account_seq,
        balance := 0, cashback_balance := 0 } := by
  show upd st.accountHeap st.account_seq _ st.account_seq = _
  simp [upd]

theorem applyTail_card_seq (st : BankSt) (uid : Nat) (ps : String) (kind : CardKind) :
    (applyTail st uid ps kind).card_seq = st.card_seq + 1 := rfl

theorem applyTail_account_seq (st : BankSt) (uid : Nat) (ps : String) (kind : CardKind) :
    (applyTail st uid ps kind).account_seq = st.account_seq + 1 := rfl

/-- Issuing a card never touches any existing card. -/
theorem apply_preserves_cards (st : BankSt) (ln fn pin ph ps : String) (kind : CardKind)
    (hwf : WF st) (cid : Nat) (c : Card) (hc : st.cardHeap cid = some c) :
    (apply_for_card st ln fn pin ph ps kind).1.cardHeap cid = some c := by
  rcases apply_cases st ln fn pin ph ps kind with h | ⟨uid, stb, hch, hah, hcs, has, h⟩
  · rw [h]
    exact hc
  · rw [h]
    have hne : cid ≠ stb.card_seq := by
      rw [hcs]
      exact Nat.ne_of_lt (hwf.card_lt cid c hc)
    rw [applyTail_cardHeap_ne _ _ _ _ _ hne, hch]
    exact hc

/-- After an issuance, every allocated account either existed before,
unchanged, or is the fresh account with balance 0. -/
theorem apply_balance_cases (st : BankSt) (ln fn pin ph ps : String) (kind : CardKind)
    (k : Nat) (a' : Account) (h' : (apply_for_card st ln fn pin ph ps kind).1.accountHeap k = some a') :
    st.accountHeap k = some a' ∨ a'.balance = 0 := by
  rcases apply_cases st ln fn pin ph ps kind with h | ⟨uid, stb, hch, hah, hcs, has, h⟩
  · rw [h] at h'
    exact Or.inl h'
  · rw [h] at h'
    by_cases he : k = stb.account_seq
    · subst he
      rw [applyTail_accountHeap_new] at h'
      cases h'
      exact Or.inr rfl
    · rw [applyTail_accountHeap_ne _ _ _ _ _ he, hah] at h'
      exact Or.inl h'

theorem wf_applyTail (s : BankSt) (uid : Nat) (ps : String) (kind : CardKind) (hwf : WF s) :
    WF (applyTail s uid ps kind) := by
  constructor
  · intro cid c hc
    by_cases he : cid = s.card_seq
    · subst he
      rw [applyTail_cardHeap_new] at hc
      cases hc
      rfl
    · rw [applyTail_cardHeap_ne _ _ _ _ _ he] at hc
      exact hwf.card_id_eq _ _ hc
  · intro cid c hc
    rw [applyTail_card_seq]
    by_cases he : cid = s.card_seq
    · omega
    · rw [applyTail_cardHeap_ne _ _ _ _ _ he] at hc
      have := hwf.card_lt _ _ hc
      omega
  · intro k a ha
    rw [applyTail_account_seq]
    by_cases he : k = s.account_seq
    · omega
    · rw [applyTail_accountHeap_ne _ _ _ _ _ he] at ha
      have := hwf.acc_lt _ _ ha
      omega
  · intro cid c k hc hk
    rw [applyTail_account_seq]
    by_cases he : cid = s.card_seq
    · subst he
      rw [applyTail_cardHeap_new] at hc
      cases hc
      cases hk
      omega
    · rw [applyTail_cardHeap_ne _ _ _ _ _ he] at hc
      have := hwf.link_lt _ _ _ hc hk
      omega
  · intro cid c k hc hk
    by_cases hke : k = s.account_seq
    · subst hke
      rw [applyTail_accountHeap_new]
      rfl
    · rw [applyTail_accountHeap_ne _ _ _ _ _ hke]
      by_cases he : cid = s.card_seq
      · subst he
        rw [applyTail_cardHeap_new] at hc
        cases hc
        cases hk
        exact absurd rfl hke
      · rw [applyTail_cardHeap_ne _ _ _ _ _ he] at hc
        exact hwf.link_some _ _ _ hc hk
  · intro cid1 cid2 c1 c2 k hne h1 h2 hk1 hk2
    by_cases e1 : cid1 = s.card_seq
    · subst e1
      rw [applyTail_cardHeap_new] at h1
      cases h1
      cases hk1
      by_cases e2 : cid2 = s.card_seq
      · exact hne e2.symm
      · rw [applyTail_cardHeap_ne _ _ _ _ _ e2] at h2
        have := hwf.link_lt _ _ _ h2 hk2
        omega
    · rw [applyTail_cardHeap_ne _ _ _ _ _ e1] at h1
      by_cases e2 : cid2 = s.card_seq
      · subst e2
        rw [applyTail_cardHeap_new] at h2
        cases h2
        cases hk2
        have := hwf.link_lt _ _ _ h1 hk1
        omega
      · rw [applyTail_cardHeap_ne _ _ _ _ _ e2] at h2
        exact hwf.link_inj _ _ _ _ _ hne h1 h2 hk1 hk2

theorem wf_of_eqs (st stb : BankSt) (hch : stb.cardHeap = st.cardHeap)
    (hah : stb.accountHeap = st.accountHeap) (hcs : stb.card_seq = st.card_seq)
    (has : stb.account_seq = st.account_seq) (hwf : WF st) : WF stb := by
  constructor
  · intro cid c hc
    exact hwf.card_id_eq _ _ (hch ▸ hc)
  · intro cid c hc
    rw [hcs]
    exact hwf.card_lt _ _ (hch ▸ hc)
  · intro k a ha
    rw [has]
    exact hwf.acc_lt _ _ (hah ▸ ha)
  · intro cid c k hc hk
    rw [has]
    exact hwf.link_lt _ _ _ (hch ▸ hc) hk
  · intro cid c k hc hk
    rw [hah]
    exact hwf.link_some _ _ _ (hch ▸ hc) hk
  · intro cid1 cid2 c1 c2 k hne h1 h2 hk1
    exact hwf.link_inj _ _ _ _ _ hne (hch ▸ h1) (hch ▸ h2) hk1

theorem apply_wf (st : BankSt) (ln fn pin ph ps : String) (kind : CardKind) (hwf : WF st) :
    WF (apply_for_card st ln fn pin ph ps kind).1 := by
  rcases apply_cases st ln fn pin ph ps kind with h | ⟨uid, stb, hch, hah, hcs, has, h⟩
  · rw [h]
    exact hwf
  · rw [h]
    exact wf_applyTail stb uid ps kind (wf_of_eqs st stb hch hah hcs has hwf)

theorem wf_of_modOK (st st' : BankSt) (hm : ModOK st st') (hwf : WF st) : WF st' := by
  obtain ⟨hcs, has, hcards, hsome, hacc⟩ := hm
  constructor
  · intro cid c' h'
    obtain ⟨c, hc, hid, _, _⟩ := hcards cid c' h'
    rw [hid]
    exact hwf.card_id_eq _ _ hc
  · intro cid c' h'
    obtain ⟨c, hc, _, _, _⟩ := hcards _ _ h'
    rw [hcs]
    exact hwf.card_lt _ _ hc
  · intro k a' h'
    obtain ⟨a, ha, _⟩ := hacc _ _ h'
    rw [has]
    exact hwf.acc_lt _ _ ha
  · intro cid c' k h' hk
    obtain ⟨c, hc, _, haq, _⟩ := hcards _ _ h'
    rw [has]
    exact hwf.link_lt _ _ _ hc (haq ▸ hk)
  · intro cid c' k h' hk
    obtain ⟨c, hc, _, haq, _⟩ := hcards _ _ h'
    exact hsome k (hwf.link_some _ _ _ hc (haq ▸ hk))
  · intro cid1 cid2 c1' c2' k hne h1 h2 hk1 hk2
    obtain ⟨c1, hc1, _, ha1, _⟩ := hcards _ _ h1
    obtain ⟨c2, hc2, _, ha2, _⟩ := hcards _ _ h2
    exact hwf.link_inj _ _ _ _ _ hne hc1 hc2 (ha1 ▸ hk1) (ha2 ▸ hk2)

theorem wf_init (bic : List Nat) : WF (initBank bic) := by
  constructor <;> intros <;> simp_all [initBank]

theorem wf_step (st st' : BankSt) (h : Step st st') (hwf : WF st) : WF st' := by
  cases h with
  | deposit_s cid a => exact wf_of_modOK _ _ (deposit_mod st cid a) hwf
  | transfer_s cid toCid a => exact wf_of_modOK _ _ (transfer_mod st cid toCid a) hwf
  | pay_s cid a mcc => exact wf_of_modOK _ _ (pay_mod st cid a mcc) hwf
  | accrue_s cid => exact wf_of_modOK _ _ (accrue_mod st cid) hwf
  | close_s cid => exact wf_of_modOK _ _ (close_mod st cid) hwf
  | change_pin_s uid o n => exact wf_of_modOK _ _ (change_pin_mod st uid o n) hwf
  | history_s cid => exact wf_of_modOK _ _ (history_mod st cid) hwf
  | global_history_s => exact wf_of_modOK _ _ (global_history_mod st) hwf
  | get_balance_s cid => exact wf_of_modOK _ _ ((get_balance_fst st cid).symm ▸ modOK_refl st) hwf
  | get_card_info_s cid => exact wf_of_modOK _ _ ((get_card_info_fst st cid).symm ▸ modOK_refl st) hwf
  | apply_s ln fn pin ph ps kind => exact apply_wf st ln fn pin ph ps kind hwf

theorem reachable_wf (st : BankSt) (h : Reachable st) : WF st := by
  obtain ⟨bic, hr⟩ := h
  induction hr with
  | refl => exact wf_init bic
  | tail _ hstep ih => exact wf_step _ _ hstep ih

theorem balnonneg_of_modOK (st st' : BankSt) (hm : ModOK st st') (hb : BalNonneg st) :
    BalNonneg st' := by
  intro k a' h'
  obtain ⟨a, ha, himp⟩ := hm.2.2.2.2 k a' h'
  exact himp (hb k a ha)

theorem step_balnonneg (st st' : BankSt) (h : Step st st') (hb : BalNonneg st) :
    BalNonneg st' := by
  cases h with
  | deposit_s cid a => exact balnonneg_of_modOK _ _ (deposit_mod st cid a) hb
  | transfer_s cid toCid a => exact balnonneg_of_modOK _ _ (transfer_mod st cid toCid a) hb
  | pay_s cid a mcc => exact balnonneg_of_modOK _ _ (pay_mod st cid a mcc) hb
  | accrue_s cid => exact balnonneg_of_modOK _ _ (accrue_mod st cid) hb
  | close_s cid => exact balnonneg_of_modOK _ _ (close_mod st cid) hb
  | change_pin_s uid o n => exact balnonneg_of_modOK _ _ (change_pin_mod st uid o n) hb
  | history_s cid => exact balnonneg_of_modOK _ _ (history_mod st cid) hb
  | global_history_s => exact balnonneg_of_modOK _ _ (global_history_mod st) hb
  | get_balance_s cid =>
    exact balnonneg_of_modOK _ _ ((get_balance_fst st cid).symm ▸ modOK_refl st) hb
  | get_card_info_s cid =>
    exact balnonneg_of_modOK _ _ ((get_card_info_fst st cid).symm ▸ modOK_refl st) hb
  | apply_s ln fn pin ph ps kind =>
    intro k a' h'
    rcases apply_balance_cases st ln fn pin ph ps kind k a' h' with h0 | h0
    · exact hb k a' h0
    · rw [h0]

theorem reachable_balnonneg (st : BankSt) (h : Reachable st) : BalNonneg st := by
  obtain ⟨bic, hr⟩ := h
  induction hr with
  | refl => intro k a ha; simp [initBank] at ha
  | tail _ hstep ih => exact step_balnonneg _ _ hstep ih

theorem allowed_of_modOK (st st' : BankSt) (cid : Nat) (c c' : Card) (hm : ModOK st st')
    (hc : st.cardHeap cid = some c) (hc' : st'.cardHeap cid = some c') :
    allowedStatus c.status c'.status := by
  obtain ⟨c0, hc0, _, _, hall⟩ := hm.2.2.1 cid c' hc'
  rw [hc, Option.some_inj] at hc0
  subst hc0
  exact hall

/-! ## Reachability of the demonstration states -/

theorem demo1_reachable_from : Relation.ReflTransGen Step demo0 demo1 :=
  Relation.ReflTransGen.single
    (Step.apply_s demo0 "Иванов" "Иван" "1234" "89991234567" "MIR" CardKind.plain)

theorem demo2_reachable_from : Relation.ReflTransGen Step demo0 demo2 :=
  demo1_reachable_from.tail
    (Step.apply_s demo1 "Иванов" "Иван" "1234" "89991234567" "MIR" CardKind.plain)

theorem demo3_reachable_from : Relation.ReflTransGen Step demo0 demo3 :=
  demo2_reachable_from.tail (Step.deposit_s demo2 1 1000)

theorem demo2_reachable : Reachable demo2 := ⟨demoBic, demo2_reachable_from⟩

theorem demo3_reachable : Reachable demo3 := ⟨demoBic, demo3_reachable_from⟩

/-! ## The temporal and invariant claims -/

/-- C3.  Under every public operation (deposit, transfer, pay,
accrue_interest, close, change_pin, the history reads and the other read
operations, with arbitrary arguments) the status of every card moves along
the one-directional order only: it stays put, goes Active to Blocked, or goes
Active/Blocked to Closed.  In particular a Closed card's status never changes
(closing a Closed card leaves it Closed) and a Blocked card is never set back
to Active. -/
theorem c3_status_one_directional (st st' : BankSt) (hr : Reachable st) (hs : Step st st')
    (cid : Nat) (c c' : Card) (hc : st.cardHeap cid = some c)
    (hc' : st'.cardHeap cid = some c') :
    allowedStatus c.status c'.status := by
  have hwf := reachable_wf st hr
  cases hs with
  | deposit_s cid2 a => exact allowed_of_modOK _ _ _ _ _ (deposit_mod st cid2 a) hc hc'
  | transfer_s cid2 toCid a =>
    exact allowed_of_modOK _ _ _ _ _ (transfer_mod st cid2 toCid a) hc hc'
  | pay_s cid2 a mcc => exact allowed_of_modOK _ _ _ _ _ (pay_mod st cid2 a mcc) hc hc'
  | accrue_s cid2 => exact allowed_of_modOK _ _ _ _ _ (accrue_mod st cid2) hc hc'
  | close_s cid2 => exact allowed_of_modOK _ _ _ _ _ (close_mod st cid2) hc hc'
  | change_pin_s uid o n =>
    exact allowed_of_modOK _ _ _ _ _ (change_pin_mod st uid o n) hc hc'
  | history_s cid2 => exact allowed_of_modOK _ _ _ _ _ (history_mod st cid2) hc hc'
  | global_history_s => exact allowed_of_modOK _ _ _ _ _ (global_history_mod st) hc hc'
  | get_balance_s cid2 =>
    exact allowed_of_modOK _ _ _ _ _ ((get_balance_fst st cid2).symm ▸ modOK_refl st) hc hc'
  | get_card_info_s cid2 =>
    exact allowed_of_modOK _ _ _ _ _ ((get_card_info_fst st cid2).symm ▸ modOK_refl st) hc hc'
  | apply_s ln fn pin ph ps kind =>
    have hpres := apply_preserves_cards st ln fn pin ph ps kind hwf cid c hc
    rw [hpres, Option.some_inj] at hc'
    subst hc'
    exact allowedStatus_refl _

/-- Witness for C3: closing Active card 1 of `demo2` is an allowed
transition. -/
theorem c3_witness :
    allowedStatus ((demo2.cardHeap 1).get (by with_unfolding_all rfl)).status
      (((close demo2 1).cardHeap 1).get (by with_unfolding_all rfl)).status :=
  c3_status_one_directional demo2 (close demo2 1) demo2_reachable (Step.close_s demo2 1) 1
    ((demo2.cardHeap 1).get (by with_unfolding_all rfl))
    (((close demo2 1).cardHeap 1).get (by with_unfolding_all rfl))
    (Option.some_get _).symm (Option.some_get _).symm

/-- C4.  In every reachable bank state every allocated account has a
non-negative balance: accounts are created with balance 0, deposits and
interest accruals only add non-negative amounts, and both debiting
operations (transfer, pay) are rejected with InsufficientFundsError before
any mutation when the balance is smaller than the amount. -/
theorem c4_balance_nonneg (st : BankSt) (h : Reachable st) :
    ∀ k a, st.accountHeap k = some a → 0 ≤ a.balance :=
  reachable_balnonneg st h

/-- Witness for C4 on the account of card 1 after a deposit. -/
theorem c4_witness : 0 ≤ ((demo3.accountHeap 1).get (by with_unfolding_all rfl)).balance :=
  c4_balance_nonneg demo3 demo3_reachable 1
    ((demo3.accountHeap 1).get (by with_unfolding_all rfl)) (Option.some_get _).symm

/-- C1.  In any reachable state, a transfer between two distinct Active,
account-linked cards of an amount `0 < a ≤ TRANSFER_LIMIT` covered by the
sender's balance succeeds: the sender's account balance decreases by exactly
`a`, the recipient's increases by exactly `a`, and exactly one transfer
Transaction (with both `from_card` and `to_card` set) is appended to the
sender's list, the recipient's list, and the bank-wide ledger; every other
account and card is untouched, both cards keep their status and fields, and
the customer and registry structures are unchanged. -/
theorem c1_transfer_success (st : BankSt) (cid1 cid2 k1 k2 : Nat) (c1 c2 : Card)
    (a1 a2 : Account) (amount : ℚ) (hr : Reachable st) (hne : cid1 ≠ cid2)
    (hc1 : st.cardHeap cid1 = some c1) (hc2 : st.cardHeap cid2 = some c2)
    (hs1 : c1.status = CardStatus.ACTIVE) (hs2 : c2.status = CardStatus.ACTIVE)
    (hk1 : c1.accId = some k1) (hk2 : c2.accId = some k2)
    (ha1 : st.accountHeap k1 = some a1) (ha2 : st.accountHeap k2 = some a2)
    (hpos : 0 < amount) (hlim : amount ≤ TRANSFER_LIMIT) (hbal : amount ≤ a1.balance) :
    (transfer st cid1 (some cid2) amount).2 = none ∧
    (transfer st cid1 (some cid2) amount).1.accountHeap k1 =
      some { a1 with balance := a1.balance - amount } ∧
    (transfer st cid1 (some cid2) amount).1.accountHeap k2 =
      some { a2 with balance := a2.balance + amount } ∧
    (∃ t : Transaction, t.type = TransactionType.transfer ∧ t.from_card = some cid1 ∧
      t.to_card = some cid2 ∧ t.amount = amount ∧
      (transfer st cid1 (some cid2) amount).1.transaction_log = st.transaction_log ++ [t] ∧
      (transfer st cid1 (some cid2) amount).1.cardHeap cid1 =
        some { c1 with transactions := c1.transactions ++ [t] } ∧
      (transfer st cid1 (some cid2) amount).1.cardHeap cid2 =
        some { c2 with transactions := c2.transactions ++ [t] }) ∧
    (∀ k, k ≠ k1 → k ≠ k2 →
      (transfer st cid1 (some cid2) amount).1.accountHeap k = st.accountHeap k) ∧
    (∀ cid, cid ≠ cid1 → cid ≠ cid2 →
      (transfer st cid1 (some cid2) amount).1.cardHeap cid = st.cardHeap cid) ∧
    (transfer st cid1 (some cid2) amount).1.customers = st.customers ∧
    (transfer st cid1 (some cid2) amount).1.accounts = st.accounts ∧
    (transfer st cid1 (some cid2) amount).1.cards = st.cards ∧
    (transfer st cid1 (some cid2) amount).1.card_seq = st.card_seq ∧
    (transfer st cid1 (some cid2) amount).1.account_seq = st.account_seq := by
  have hwf := reachable_wf st hr
  have hid1 : c1.card_id = cid1 := hwf.card_id_eq _ _ hc1
  have hid2 : c2.card_id = cid2 := hwf.card_id_eq _ _ hc2
  have hidne : ¬ c1.card_id = c2.card_id := by
    rw [hid1, hid2]
    exact hne
  have hk21 : k2 ≠ k1 := by
    intro he
    exact hwf.link_inj cid1 cid2 c1 c2 k1 hne hc1 hc2 hk1 (he ▸ hk2)
  have hnle : ¬ amount ≤ 0 := not_le.mpr hpos
  have hnbig : ¬ TRANSFER_LIMIT < amount := not_lt.mpr hlim
  have hnfunds : ¬ a1.balance < amount := not_lt.mpr hbal
  have hs1' : ¬(c1.status = CardStatus.CLOSED ∨ c1.status = CardStatus.BLOCKED) := by
    rw [hs1]
    simp
  have hs2' : ¬(c2.status = CardStatus.CLOSED ∨ c2.status = CardStatus.BLOCKED) := by
    rw [hs2]
    simp
  have ha2' : upd st.accountHeap k1 (some { a1 with balance := a1.balance - amount }) k2 =
      some a2 := by
    simp only [upd, if_neg hk21]
    exact ha2
  have hred : transfer st cid1 (some cid2) amount =
      ({ st with
          ts_cursor := (nextTimestampAfter st.ts_cursor (max c1.issue_date c2.issue_date)).2,
          accountHeap := upd (upd st.accountHeap k1 (some { a1 with balance := a1.balance - amount })) k2 (some { a2 with balance := a2.balance + amount }),
          cardHeap := upd (upd st.cardHeap cid1 (some { c1 with transactions := c1.transactions ++ [{ from_card := some c1.card_id, to_card := some c2.card_id, amount := amount, type := TransactionType.transfer, mcc := none, timestamp := (nextTimestampAfter st.ts_cursor (max c1.issue_date c2.issue_date)).1 }] })) cid2 (some { c2 with transactions := c2.transactions ++ [{ from_card := some c1.card_id, to_card := some c2.card_id, amount := amount, type := TransactionType.transfer, mcc := none, timestamp := (nextTimestampAfter st.ts_cursor (max c1.issue_date c2.issue_date)).1 }] }),
          transaction_log := st.transaction_log ++ [{ from_card := some c1.card_id, to_card := some c2.card_id, amount := amount, type := TransactionType.transfer, mcc := none, timestamp := (nextTimestampAfter st.ts_cursor (max c1.issue_date c2.issue_date)).1 }] }, none) := by
    unfold transfer
    rw [hc1]
    dsimp only
    rw [if_neg hnle, hc2]
    dsimp only
    rw [hk1]
    dsimp only
    rw [hk2]
    dsimp only
    rw [if_neg hs1', if_neg hs2', if_neg hidne, if_neg hnbig, ha1]
    dsimp only
    rw [if_neg hnfunds]
    rw [ha2']
  rw [hred]
  refine ⟨rfl, ?_, ?_, ?_, ?_, ?_, rfl, rfl, rfl, rfl, rfl⟩
  · show upd _ k2 _ k1 = _
    simp [upd, hk21.symm]
  · show upd _ k2 _ k2 = _
    simp [upd]
  · refine ⟨_, rfl, ?_, ?_, rfl, rfl, ?_, ?_⟩
    · show some c1.card_id = some cid1
      rw [hid1]
    · show some c2.card_id = some cid2
      rw [hid2]
    · show upd _ cid2 _ cid1 = _
      simp [upd, hne]
    · show upd _ cid2 _ cid2 = _
      simp [upd]
  · intro k hx1 hx2
    show upd _ k2 _ k = _
    simp [upd, hx1, hx2]
  · intro cid hx1 hx2
    show upd _ cid2 _ cid = _
    simp [upd, hx1, hx2]

/-- Witness for C1: a 500-rouble transfer from card 1 (balance 1000) to card
2 in the reachable state `demo3`. -/
theorem c1_witness :
    (transfer demo3 1 (some 2) 500).2 = none ∧
    0 < (500 : ℚ) ∧
    (transfer demo3 1 (some 2) 500).1.customers = demo3.customers := by
  have H := c1_transfer_success demo3 1 2 1 2
    ((demo3.cardHeap 1).get (by with_unfolding_all rfl))
    ((demo3.cardHeap 2).get (by with_unfolding_all rfl))
    { ownerId := 1, acc_id := some [4, 0, 8, 1, 7, 8, 1, 0, 7, 0, 0, 0, 0, 0, 0, 0, 0, 0, 0, 1],
      balance := 1000, cashback_balance := 0 }
    { ownerId := 1, acc_id := some [4, 0, 8, 1, 7, 8, 1, 0, 0, 0, 0, 0, 0, 0, 0, 0, 0, 0, 0, 2],
      balance := 0, cashback_balance := 0 }
    500 demo3_reachable (by decide)
    (Option.some_get _).symm (Option.some_get _).symm
    (by with_unfolding_all rfl) (by with_unfolding_all rfl)
    (by with_unfolding_all rfl) (by with_unfolding_all rfl)
    (by with_unfolding_all rfl) (by with_unfolding_all rfl)
    (by norm_num) (by norm_num [TRANSFER_LIMIT]) (by norm_num)
  exact ⟨H.1, by norm_num, H.2.2.2.2.2.2.1⟩

/-- C7.  First part: two `apply_for_card` calls with identical (phone, last
name, first name) and otherwise valid inputs both succeed, bind both cards to
the same user id, create no new user on the second call, and each append
exactly one fresh card id to that user's card list.  Second part: a call for
a matching user who already holds five or more cards fails with the
too-many-cards BusinessRuleError and returns the bank state exactly as it
was — no Account, PAN or Card is created and no registry or sequence
changes. -/
theorem c7_apply_twice_and_limit :
    (∀ (st : BankSt) (ln fn pin ph ps : String) (kind : CardKind),
      pyIsDigit pin = true → pin.length = 4 →
      isRussianName ln = true → isRussianName fn = true →
      (ps.toUpper = "MIR" ∨ ps.toUpper = "VISA" ∨ ps.toUpper = "MASTERCARD") →
      st.customers.any (userConflict ph ln fn) = false →
      (∀ u ∈ st.customers, userMatches ph ln fn u = true → u.cards.length ≤ 3) →
      ∃ u1 u2,
        (apply_for_card st ln fn pin ph ps kind).2 = none ∧
        (apply_for_card (apply_for_card st ln fn pin ph ps kind).1 ln fn pin ph ps kind).2 =
          none ∧
        (apply_for_card st ln fn pin ph ps kind).1.customers.find?
          (userMatches ph ln fn) = some u1 ∧
        (apply_for_card (apply_for_card st ln fn pin ph ps kind).1 ln fn pin ph ps
          kind).1.customers.find? (userMatches ph ln fn) = some u2 ∧
        u2.user_id = u1.user_id ∧
        u1.cards.length =
          (match st.customers.find? (userMatches ph ln fn) with
           | some u => u.cards.length
           | none => 0) + 1 ∧
        u1.cards.getLast? = some st.card_seq ∧
        u2.cards = u1.cards ++ [(apply_for_card st ln fn pin ph ps kind).1.card_seq] ∧
        (apply_for_card (apply_for_card st ln fn pin ph ps kind).1 ln fn pin ph ps
          kind).1.customers.length =
          (apply_for_card st ln fn pin ph ps kind).1.customers.length) ∧
    (∀ (st : BankSt) (ln fn pin ph ps : String) (kind : CardKind) (u : User),
      pyIsDigit pin = true → pin.length = 4 →
      isRussianName ln = true → isRussianName fn = true →
      (ps.toUpper = "MIR" ∨ ps.toUpper = "VISA" ∨ ps.toUpper = "MASTERCARD") →
      st.customers.any (userConflict ph ln fn) = false →
      st.customers.find? (userMatches ph ln fn) = some u →
      5 ≤ u.cards.length →
      apply_for_card st ln fn pin ph ps kind =
        (st, some (BankError.businessRule ErrMsg.TOO_MANY_DEBIT_CARDS))) := by
  constructor
  · intro st ln fn pin ph ps kind hpin hlen hn1 hn2 hps hconf hmax
    cases hfind : st.customers.find? (userMatches ph ln fn) with
    | some u =>
      have hu_mem : u ∈ st.customers := List.mem_of_find?_eq_some hfind
      have hu_match : userMatches ph ln fn u = true := List.find?_some hfind
      have hcnt3 : u.cards.length ≤ 3 := hmax u hu_mem hu_match
      have hred1 := apply_reduce_found st ln fn pin ph ps kind u hpin hlen hn1 hn2 hps hconf
        hfind (by omega)
      rw [hred1]
      -- the first call's state
      have hcust1 : (applyTail st u.user_id ps kind).customers =
          st.customers.map (fun v => if v.user_id = u.user_id then
            { v with cards := v.cards ++ [st.card_seq],
                     accounts := v.accounts ++ [st.account_seq] } else v) := rfl
      have hfind1 : (applyTail st u.user_id ps kind).customers.find?
          (userMatches ph ln fn) = some
            { u with cards := u.cards ++ [st.card_seq],
                     accounts := u.accounts ++ [st.account_seq] } := by
        rw [hcust1, find?_map_pres _ _ _
          (tail_update_matches ph ln fn u.user_id st.card_seq st.account_seq), hfind]
        simp
      have hconf1 : (applyTail st u.user_id ps kind).customers.any
          (userConflict ph ln fn) = false := by
        rw [hcust1, any_map_pres _ _ _
          (tail_update_conflict ph ln fn u.user_id st.card_seq st.account_seq)]
        exact hconf
      have hred2 := apply_reduce_found (applyTail st u.user_id ps kind) ln fn pin ph ps kind
        _ hpin hlen hn1 hn2 hps hconf1 hfind1 (by simp; omega)
      rw [hred2]
      have hfind2 : (applyTail (applyTail st u.user_id ps kind)
          ({ u with cards := u.cards ++ [st.card_seq],
                    accounts := u.accounts ++ [st.account_seq] } : User).user_id ps
          kind).customers.find? (userMatches ph ln fn) = some
            { u with cards := (u.cards ++ [st.card_seq]) ++
                        [(applyTail st u.user_id ps kind).card_seq],
                     accounts := (u.accounts ++ [st.account_seq]) ++
                        [(applyTail st u.user_id ps kind).account_seq] } := by
        rw [show (applyTail (applyTail st u.user_id ps kind)
            ({ u with cards := u.cards ++ [st.card_seq],
                      accounts := u.accounts ++ [st.account_seq] } : User).user_id ps
            kind).customers = (applyTail st u.user_id ps kind).customers.map
              (fun v => if v.user_id = u.user_id then
                { v with cards := v.cards ++ [(applyTail st u.user_id ps kind).card_seq],
                         accounts := v.accounts ++
                           [(applyTail st u.user_id ps kind).account_seq] } else v)
            from rfl,
          find?_map_pres _ _ _ (tail_update_matches ph ln fn u.user_id _ _), hfind1]
        simp
      exact ⟨_, _, rfl, rfl, hfind1, hfind2, rfl, by simp [hfind],
        by simp [List.getLast?_concat], rfl, by simp [hcust1, applyTail]⟩
    | none =>
      have hred1 := apply_reduce_new st ln fn pin ph ps kind hpin hlen hn1 hn2 hps hconf hfind
      rw [hred1]
      set newU : User :=
        { last_name := ln, first_name := fn, pin := pin, phone := ph,
          user_id := st.user_seq, accounts := [], cards := [] } with hnewU
      set stE : BankSt :=
        { st with user_seq := st.user_seq + 1,
                  customers := st.customers ++ [newU],
                  accounts := upd st.accounts st.user_seq [],
                  cards := upd st.cards st.user_seq [] } with hstE
      have hMnew : userMatches ph ln fn newU = true := by
        simp [userMatches, hnewU]
      have hCnew : userConflict ph ln fn newU = false := by
        simp [userConflict, hnewU]
      have hcust1 : (applyTail stE st.user_seq ps kind).customers =
          (st.customers ++ [newU]).map (fun v => if v.user_id = st.user_seq then
            { v with cards := v.cards ++ [st.card_seq],
                     accounts := v.accounts ++ [st.account_seq] } else v) := rfl
      have hfind1 : (applyTail stE st.user_seq ps kind).customers.find?
          (userMatches ph ln fn) = some
            { newU with cards := [st.card_seq], accounts := [st.account_seq] } := by
        rw [hcust1, find?_map_pres _ _ _
          (tail_update_matches ph ln fn st.user_seq st.card_seq st.account_seq),
          find?_append_none _ _ _ hfind]
        simp [List.find?_cons, hMnew, hnewU]
      have hconf1 : (applyTail stE st.user_seq ps kind).customers.any
          (userConflict ph ln fn) = false := by
        rw [hcust1, any_map_pres _ _ _
          (tail_update_conflict ph ln fn st.user_seq st.card_seq st.account_seq)]
        simp [hconf, hCnew]
      have hred2 := apply_reduce_found (applyTail stE st.user_seq ps kind) ln fn pin ph ps kind
        _ hpin hlen hn1 hn2 hps hconf1 hfind1 (by simp)
      rw [hred2]
      have hfind2 : (applyTail (applyTail stE st.user_seq ps kind)
          ({ newU with cards := [st.card_seq], accounts := [st.account_seq] } : User).user_id
          ps kind).customers.find? (userMatches ph ln fn) = some
            { newU with
                cards := [st.card_seq] ++ [(applyTail stE st.user_seq ps kind).card_seq],
                accounts :=
                  [st.account_seq] ++ [(applyTail stE st.user_seq ps kind).account_seq] } := by
        rw [show (applyTail (applyTail stE st.user_seq ps kind)
            ({ newU with cards := [st.card_seq], accounts := [st.account_seq] } : User).user_id
            ps kind).customers = (applyTail stE st.user_seq ps kind).customers.map
              (fun v => if v.user_id = st.user_seq then
                { v with cards := v.cards ++ [(applyTail stE st.user_seq ps kind).card_seq],
                         accounts := v.accounts ++
                           [(applyTail stE st.user_seq ps kind).account_seq] } else v)
            from rfl,
          find?_map_pres _ _ _ (tail_update_matches ph ln fn st.user_seq _ _), hfind1]
        simp [hnewU]
      exact ⟨_, _, rfl, rfl, hfind1, hfind2, rfl, by simp [hfind], by simp [hnewU],
        rfl, by simp [hcust1, applyTail]⟩
  · intro st ln fn pin ph ps kind u hpin hlen hn1 hn2 hps hconf hfind hcards
    exact apply_reduce_toomany st ln fn pin ph ps kind u hpin hlen hn1 hn2 hps hconf hfind
      hcards

/-- Witness for C7: both parts at concrete states — a double issuance on the
fresh demonstration bank, and the sixth-card refusal on the five-card user of
`demo5`. -/
theorem c7_witness :
    (∃ u1 u2,
      (apply_for_card demo0 "Иванов" "Иван" "1234" "89991234567" "MIR" CardKind.plain).2 =
        none ∧
      (apply_for_card (apply_for_card demo0 "Иванов" "Иван" "1234" "89991234567" "MIR"
        CardKind.plain).1 "Иванов" "Иван" "1234" "89991234567" "MIR" CardKind.plain).2 =
        none ∧
      (apply_for_card demo0 "Иванов" "Иван" "1234" "89991234567" "MIR"
        CardKind.plain).1.customers.find? (userMatches "89991234567" "Иванов" "Иван") =
        some u1 ∧
      (apply_for_card (apply_for_card demo0 "Иванов" "Иван" "1234" "89991234567" "MIR"
        CardKind.plain).1 "Иванов" "Иван" "1234" "89991234567" "MIR"
        CardKind.plain).1.customers.find? (userMatches "89991234567" "Иванов" "Иван") =
        some u2 ∧
      u2.user_id = u1.user_id ∧
      u1.cards.length =
        (match demo0.customers.find? (userMatches "89991234567" "Иванов" "Иван") with
         | some u => u.cards.length
         | none => 0) + 1 ∧
      u1.cards.getLast? = some demo0.card_seq ∧
      u2.cards = u1.cards ++
        [(apply_for_card demo0 "Иванов" "Иван" "1234" "89991234567" "MIR"
          CardKind.plain).1.card_seq] ∧
      (apply_for_card (apply_for_card demo0 "Иванов" "Иван" "1234" "89991234567" "MIR"
        CardKind.plain).1 "Иванов" "Иван" "1234" "89991234567" "MIR"
        CardKind.plain).1.customers.length =
        (apply_for_card demo0 "Иванов" "Иван" "1234" "89991234567" "MIR"
          CardKind.plain).1.customers.length) ∧
    apply_for_card demo5 "Иванов" "Иван" "1234" "89991234567" "MIR" CardKind.plain =
      (demo5, some (BankError.businessRule ErrMsg.TOO_MANY_DEBIT_CARDS)) :=
  ⟨c7_apply_twice_and_limit.1 demo0 "Иванов" "Иван" "1234" "89991234567" "MIR" CardKind.plain
      (by decide) (by decide) (by decide) (by decide) (Or.inl (by with_unfolding_all rfl))
      (by decide) (by decide),
    c7_apply_twice_and_limit.2 demo5 "Иванов" "Иван" "1234" "89991234567" "MIR" CardKind.plain
      ((demo5.customers.find? (userMatches "89991234567" "Иванов" "Иван")).get
        (by with_unfolding_all rfl))
      (by decide) (by decide) (by decide) (by decide) (Or.inl (by with_unfolding_all rfl))
      (by with_unfolding_all rfl) (Option.some_get _).symm
      (by with_unfolding_all decide)⟩
